import Mathlib

/-!
Verification development for the docker_checker repository.

The container payloads handled by `app/docker_service.py` are JSON-like
dictionaries.  We embed them as `JVal` / `JObj` and translate
`format_container`, the remote listing loop of `DockerService.list_containers`,
the remote mutating operations, `DockerService.get_logs`, the SSH connection
keyword construction of `DockerService.get_ssh_client`, and the multi-host
fan-out of `app/routes/dashboard.py` into Lean, modelling the Python runtime
behaviour (truthiness, `in` tests, indexing, and the exceptions they can
raise) explicitly.  Library calls that are not part of the repository
(`datetime.fromisoformat`, `json.loads`, the SSH transport, the local docker
client) are taken as function parameters, so every theorem quantifies over
their behaviour.
-/

/-- A JSON-like Python value as it appears in a container payload. -/
inductive JVal where
  | null
  | bool (b : Bool)
  | num (n : Int)
  | str (s : String)
  | arr (items : List JVal)
  | obj (fields : List (String × JVal))

/-- A JSON object / Python dict: an ordered association list. -/
abbrev JObj := List (String × JVal)

/-- Python truthiness of a `JVal` (`bool(v)`). -/
def JVal.truthy : JVal → Bool
  | JVal.null => false
  | JVal.bool b => b
  | JVal.num n => n != 0
  | JVal.str s => s != ""
  | JVal.arr l => !l.isEmpty
  | JVal.obj m => !m.isEmpty

/-- Dict lookup: `m[k]` as an `Option` (first matching key). -/
def jlookup (m : JObj) (k : String) : Option JVal :=
  (m.find? (fun p => p.1 == k)).map (fun p => p.2)

/-- Python `k in m` for a dict. -/
def hasKey (m : JObj) (k : String) : Bool :=
  (m.find? (fun p => p.1 == k)).isSome

/-- Python `m.get(k)`: `None` when the key is missing. -/
def jget (m : JObj) (k : String) : JVal :=
  (jlookup m k).getD JVal.null

/-- Splitter for Python `s.split(sep)` with a non-empty separator, written
with a character-count fuel so that it is structural (and thus computable by
kernel reduction); every step consumes at least one character, so a fuel of
`cs.length` is always sufficient. -/
def pySplitAux (sep : List Char) : Nat → List Char → List Char → List (List Char)
  | _, [], cur => [cur.reverse]
  | 0, cs, cur => [cur.reverse ++ cs]
  | Nat.succ fuel, c :: rest, cur =>
      if sep.isPrefixOf (c :: rest) then
        cur.reverse :: pySplitAux sep fuel ((c :: rest).drop sep.length) []
      else
        pySplitAux sep fuel rest (c :: cur)

/-- Python `s.split(sep)` for a non-empty separator. -/
def pySplit (s : String) (sep : String) : List String :=
  (pySplitAux sep.data s.data.length s.data []).map String.mk

/-- Python `s.strip()`: remove leading and trailing whitespace. -/
def pyStrip (s : String) : String :=
  String.mk (((s.data.dropWhile Char.isWhitespace).reverse.dropWhile Char.isWhitespace).reverse)

/-- Python `s.lower()`. -/
def pyLower (s : String) : String :=
  String.mk (s.data.map Char.toLower)

/-- Substring test, Python `pat in s` for strings. -/
def strContains (s pat : String) : Bool :=
  if pat = "" then true
  else
    match pySplit s pat with
    | _ :: _ :: _ => true
    | _ => false

/-- Python `repr` of a JSON value (approximation: no escaping inside strings). -/
def pyRepr : JVal → String
  | JVal.null => "None"
  | JVal.bool true => "True"
  | JVal.bool false => "False"
  | JVal.num n => toString n
  | JVal.str s => "\x27" ++ s ++ "\x27"
  | JVal.arr l =>
      "[" ++ String.intercalate ", " (l.attach.map (fun x => pyRepr x.1)) ++ "]"
  | JVal.obj m =>
      "\x7b" ++ String.intercalate ", "
        (m.attach.map (fun p => "\x27" ++ p.1.1 ++ "\x27: " ++ pyRepr p.1.2)) ++ "\x7d"
termination_by v => sizeOf v
decreasing_by
  all_goals simp_wf
  · obtain ⟨a, hm⟩ := x
    have hh := List.sizeOf_lt_of_mem hm
    simp only []
    omega
  · obtain ⟨⟨a, b⟩, hm⟩ := p
    have hh := List.sizeOf_lt_of_mem hm
    simp only [Prod.mk.sizeOf_spec] at hh
    simp only []
    omega

/-- Python `str(v)` of a JSON value. -/
def pyStr : JVal → String
  | JVal.str s => s
  | v => pyRepr v

/-- Python `key in v` for an arbitrary value: dicts test keys, strings test
substrings, lists test membership (string equality; `str == non-str` is
`False`), anything else raises `TypeError`. -/
def pyIn (key : String) (v : JVal) : Except String Bool :=
  match v with
  | JVal.obj m => Except.ok (hasKey m key)
  | JVal.str s => Except.ok (strContains s key)
  | JVal.arr l => Except.ok (l.any (fun x => match x with | JVal.str s => s == key | _ => false))
  | _ => Except.error "TypeError: argument is not iterable"

/-- Python `v[key]` with a string key: only dicts support it. -/
def pyIndex (v : JVal) (key : String) : Except String JVal :=
  match v with
  | JVal.obj m =>
      match jlookup m key with
      | some x => Except.ok x
      | none => Except.error "KeyError"
  | _ => Except.error "TypeError: not subscriptable by str"

/-- Python `len(v)`: strings, lists and dicts have a length, the rest raise. -/
def pyLen : JVal → Except String Nat
  | JVal.str s => Except.ok s.length
  | JVal.arr l => Except.ok l.length
  | JVal.obj m => Except.ok m.length
  | _ => Except.error "TypeError: object has no len"

/-- Python iteration `for x in v`: lists yield elements, strings yield
one-character strings, dicts yield their keys; the rest raise `TypeError`. -/
def pyIter : JVal → Except String (List JVal)
  | JVal.arr l => Except.ok l
  | JVal.str s => Except.ok (s.data.map (fun ch => JVal.str (String.mk [ch])))
  | JVal.obj m => Except.ok (m.map (fun p => JVal.str p.1))
  | _ => Except.error "TypeError: not iterable"

/-- Python `s.lstrip` with a slash argument: drop all leading slash characters. -/
def pyLstripSlash (s : String) : String :=
  String.mk (s.data.dropWhile (fun ch => ch == '/'))

/-- Python `started_at.replace` of the letter Z by a UTC offset suffix
(docker_service.py:50); the pattern is a single character, hence a character
expansion. -/
def replaceZ (s : String) : String :=
  String.mk (List.flatten (s.data.map (fun ch => if ch = 'Z' then "+00:00".data else [ch])))

/-- The canonical record `format_container` returns (docker_service.py:137-148).
Field values keep the dynamic `JVal` type wherever the Python code can put a
non-string there. -/
structure ContainerRecord where
  id : JVal
  name : String
  image : JVal
  state : JVal
  status : JVal
  ports : String
  created : JVal
  host : String
  compose_path : JVal

/-- Name resolution, docker_service.py:18-24.  A non-empty list-valued `Names`
whose first element is not a string raises `AttributeError` (`.lstrip`). -/
def nameOf (c : JObj) : Except String String :=
  match jlookup c "Names" with
  | some (JVal.arr (JVal.str s :: _)) => Except.ok (pyLstripSlash s)
  | some (JVal.arr (_ :: _)) => Except.error "AttributeError: object has no attribute lstrip"
  | _ =>
      match jlookup c "Name" with
      | some (JVal.str s) => Except.ok (pyLstripSlash s)
      | _ => Except.ok "Unknown"

/-- Image resolution, docker_service.py:27-31 (total: every access is guarded). -/
def imageOf (c : JObj) : JVal :=
  match jlookup c "Config" with
  | some (JVal.obj cfg) =>
      match jlookup cfg "Image" with
      | some v => v
      | none => if hasKey c "Image" then jget c "Image" else JVal.str "Unknown"
  | _ => if hasKey c "Image" then jget c "Image" else JVal.str "Unknown"

/-- State resolution, docker_service.py:34-38. -/
def stateOf (c : JObj) : JVal :=
  match jlookup c "State" with
  | some (JVal.obj st) => (jlookup st "Status").getD (JVal.str "unknown")
  | some v => v
  | none => JVal.str "unknown"

/-- The four uptime buckets of docker_service.py:60-67, applied to the
day/hour/minute decomposition of the elapsed timedelta. -/
def uptimeText (days hours minutes : Int) : String :=
  if days > 0 then "Up " ++ toString days ++ " days"
  else if hours > 0 then "Up " ++ toString hours ++ " hours"
  else if minutes > 0 then "Up " ++ toString minutes ++ " mins"
  else "Up < 1 min"

/-- The `try` block of docker_service.py:47-71.  `parse` models
`datetime.fromisoformat` composed with the timezone handling and returns the
start instant in UTC seconds; `now` models `datetime.now(timezone.utc)`.
Every exception inside the block is caught and yields `"Unknown"`. -/
def tryStatus (parse : String → Option Int) (now : Int) (started_at : JVal) (state : JVal) : JVal :=
  match started_at with
  | JVal.str sa =>
      match parse (replaceZ sa) with
      | some start =>
          let diff : Int := now - start
          let days : Int := diff.fdiv 86400
          let seconds : Int := diff.fmod 86400
          let hours : Int := seconds.fdiv 3600
          let minutes : Int := (seconds.fmod 3600).fdiv 60
          match state with
          | JVal.str st =>
              if pyLower st = "running" then JVal.str (uptimeText days hours minutes)
              else JVal.str "Exited"
          | _ => JVal.str "Unknown"
      | none => JVal.str "Unknown"
  | _ => JVal.str "Unknown"

/-- Status text, docker_service.py:41-74 (total). -/
def statusOf (parse : String → Option Int) (now : Int) (c : JObj) (state : JVal) : JVal :=
  let status_text : JVal := jget c "Status"
  let status_text : JVal :=
    if status_text.truthy then status_text
    else
      match jlookup c "State" with
      | some (JVal.obj st) =>
          let started_at := (jlookup st "StartedAt").getD JVal.null
          if started_at.truthy then tryStatus parse now started_at state else status_text
      | _ => status_text
  if status_text.truthy then status_text else JVal.str "Unknown"

/-- One host-binding entry of the SDK port loop, docker_service.py:82-84. -/
def bindEntry (port : String) (bind : JVal) : Except String (List String) :=
  if bind.truthy then
    match pyIn "HostPort" bind with
    | Except.error e => Except.error e
    | Except.ok true =>
        match bind with
        | JVal.obj m => Except.ok [pyStr ((jlookup m "HostPort").getD JVal.null) ++ "->" ++ port]
        | _ => Except.error "AttributeError: object has no attribute get"
    | Except.ok false => Except.ok []
  else Except.ok []

/-- Fold of `for bind in bindings`, docker_service.py:82-84. -/
def bindsFold (port : String) : List JVal → Except String (List String)
  | [] => Except.ok []
  | bind :: rest =>
      match bindEntry port bind with
      | Except.error e => Except.error e
      | Except.ok l =>
          match bindsFold port rest with
          | Except.error e => Except.error e
          | Except.ok ls => Except.ok (l ++ ls)

/-- One entry of `NetworkSettings.Ports`, docker_service.py:80-86. -/
def portEntry (port : String) (bindings : JVal) : Except String (List String) :=
  if bindings.truthy then
    match pyIter bindings with
    | Except.error e => Except.error e
    | Except.ok items => bindsFold port items
  else Except.ok [port]

/-- The SDK branch of the ports loop over the whole `Ports` map. -/
def sdkPorts : List (String × JVal) → Except String (List String)
  | [] => Except.ok []
  | (port, bindings) :: rest =>
      match portEntry port bindings with
      | Except.error e => Except.error e
      | Except.ok l =>
          match sdkPorts rest with
          | Except.error e => Except.error e
          | Except.ok ls => Except.ok (l ++ ls)

/-- The CLI / flat branch of the ports logic, docker_service.py:88-91. -/
def flatPorts (c : JObj) : List String :=
  if hasKey c "Ports" then
    let p := jget c "Ports"
    if p.truthy then [pyStr p] else []
  else []

/-- Ports section, docker_service.py:77-93.  Note `NetworkSettings` is used
without an `isinstance` guard: a null value raises `TypeError` here. -/
def portsListOf (c : JObj) : Except String (List String) :=
  if hasKey c "NetworkSettings" then
    let ns := jget c "NetworkSettings"
    match pyIn "Ports" ns with
    | Except.error e => Except.error e
    | Except.ok false => Except.ok (flatPorts c)
    | Except.ok true =>
        match pyIndex ns "Ports" with
        | Except.error e => Except.error e
        | Except.ok (JVal.obj pm) => sdkPorts pm
        | Except.ok _ => Except.ok (flatPorts c)
  else Except.ok (flatPorts c)

/-- Joined ports string, docker_service.py:93. -/
def portsOf (c : JObj) : Except String String :=
  match portsListOf c with
  | Except.error e => Except.error e
  | Except.ok l => Except.ok (String.intercalate ", " l)

/-- Python `created.replace` of the letter T by a space (one-character
pattern, hence a character map). -/
def replaceT (s : String) : String :=
  String.mk (s.data.map (fun ch => if ch = 'T' then ' ' else ch))

/-- Created section, docker_service.py:96-99. -/
def createdOf (c : JObj) : Except String JVal :=
  let created := (jlookup c "Created").getD ((jlookup c "CreatedAt").getD (JVal.str "Unknown"))
  if created.truthy then
    match pyLen created with
    | Except.error e => Except.error e
    | Except.ok n =>
        if n > 19 then
          match created with
          | JVal.str s => Except.ok (JVal.str (String.mk ((replaceT s).data.take 19)))
          | _ => Except.error "AttributeError: object has no attribute replace"
        else Except.ok created
  else Except.ok created

/-- The compose working-directory label key. -/
def composeKey : String := "com.docker.compose.project.working_dir"

/-- The substring searched for in the special-case extraction. -/
def composeNeedle : String := composeKey ++ "="

/-- Python `part.split` on the first equals sign (`split` with maxsplit one). -/
def splitFirstEq (part : String) : String × String :=
  match pySplit part "=" with
  | [] => (part, "")
  | k :: rest => (k, String.intercalate "=" rest)

/-- Dict assignment `d[k] = v` preserving insertion order. -/
def dictSetJ (d : List (String × JVal)) (k : String) (v : JVal) : List (String × JVal) :=
  if d.any (fun p => p.1 == k) then d.map (fun p => if p.1 == k then (k, v) else p)
  else d ++ [(k, v)]

/-- One segment of the permissive label parse (docker_service.py:130-133):
segments without an equals sign are skipped, the rest are split on the first
equals sign and stripped. -/
def labelStep (lbls : List (String × JVal)) (part : String) : List (String × JVal) :=
  if strContains part "=" then
    dictSetJ lbls (pyStrip (splitFirstEq part).1) (JVal.str (pyStrip (splitFirstEq part).2))
  else lbls

/-- Parsing of a string-valued `Labels` field, docker_service.py:115-133:
first the special-case substring extraction of the compose key (find the
needle, take everything up to the next comma, strip), then the permissive
`key=value` comma-split parse of every segment. -/
def parseLabelsString (raw : String) : List (String × JVal) :=
  let labels : List (String × JVal) :=
    if strContains raw composeNeedle then
      match pySplit raw composeNeedle with
      | _ :: t0 :: ts =>
          let tailStr := String.intercalate composeNeedle (t0 :: ts)
          let value := pyStrip ((pySplit tailStr ",").headD "")
          dictSetJ [] composeKey (JVal.str value)
      | _ => []
    else []
  (pySplit raw ",").foldl labelStep labels

/-- The labels value, docker_service.py:102-133.  Note the `Config` branch has
no `isinstance` guard (`'Labels' in c['Config']` raises on a null `Config`). -/
def labelsVal (c : JObj) : Except String JVal :=
  match
    (if hasKey c "Config" then pyIn "Labels" (jget c "Config") else Except.ok false) with
  | Except.error e => Except.error e
  | Except.ok true =>
      match pyIndex (jget c "Config") "Labels" with
      | Except.error e => Except.error e
      | Except.ok lv => Except.ok (if lv.truthy then lv else JVal.obj [])
  | Except.ok false =>
      if hasKey c "Labels" then
        match jget c "Labels" with
        | JVal.obj m => Except.ok (JVal.obj m)
        | JVal.str raw => Except.ok (JVal.obj (parseLabelsString raw))
        | _ => Except.ok (JVal.obj [])
      else Except.ok (JVal.obj [])

/-- Compose path, docker_service.py:135.  `labels.get` raises when the labels
value taken from `Config` is a truthy non-dict. -/
def composePathOf (c : JObj) : Except String JVal :=
  match labelsVal c with
  | Except.error e => Except.error e
  | Except.ok (JVal.obj m) => Except.ok ((jlookup m composeKey).getD (JVal.str ""))
  | Except.ok _ => Except.error "AttributeError: object has no attribute get"

/-- Identifier truncation, docker_service.py:138.  Slicing works on strings
and lists; `None`, numbers, booleans and dicts raise `TypeError`. -/
def idOf (c : JObj) : Except String JVal :=
  match (jlookup c "Id").getD ((jlookup c "ID").getD (JVal.str "")) with
  | JVal.str s => Except.ok (JVal.str (String.mk (s.data.take 12)))
  | JVal.arr l => Except.ok (JVal.arr (l.take 12))
  | _ => Except.error "TypeError: object is not subscriptable"

/-- The normalizer `format_container` (docker_service.py:14-148), with the
fallible sections sequenced in source order. -/
def format_container (parse : String → Option Int) (now : Int)
    (host_name : String) (c : JObj) : Except String ContainerRecord :=
  (nameOf c).bind fun name =>
  (portsOf c).bind fun ports =>
  (createdOf c).bind fun created =>
  (composePathOf c).bind fun compose =>
  (idOf c).map fun idv =>
    { id := idv
      name := name
      image := imageOf c
      state := stateOf c
      status := statusOf parse now c (stateOf c)
      ports := ports
      created := created
      host := host_name
      compose_path := compose }

/-! ## Remote listing (docker_service.py:182-220) -/

/-- The key remapping applied to one parsed CLI JSON line,
docker_service.py:206-214.  Every `data.get` turns a missing CLI field into
null; in particular `Names` becomes a one-element list holding null when the
CLI line has no `Names` field, and the `Labels` field of the CLI line is
dropped entirely. -/
def remapCli (data : JObj) : JObj :=
  [("Id", jget data "ID"),
   ("Names", JVal.arr [jget data "Names"]),
   ("Image", jget data "Image"),
   ("State", jget data "State"),
   ("Status", jget data "Status"),
   ("Ports", jget data "Ports"),
   ("Created", jget data "CreatedAt")]

/-- The line loop of the remote branch of `DockerService.list_containers`
(docker_service.py:199-218).  `jsonLoads` models `json.loads`: `none` is a
`json.JSONDecodeError` (caught: the line is skipped), a non-object value makes
the subsequent `data.get` raise `AttributeError` (not caught), and a record
whose normalization raises propagates the exception. -/
def processLines (jsonLoads : String → Option JVal) (parse : String → Option Int)
    (now : Int) (host_name : String) : List String → Except String (List ContainerRecord)
  | [] => Except.ok []
  | line :: rest =>
      if line = "" then processLines jsonLoads parse now host_name rest
      else
        match jsonLoads line with
        | none => processLines jsonLoads parse now host_name rest
        | some (JVal.obj data) =>
            match format_container parse now host_name (remapCli data) with
            | Except.error e => Except.error e
            | Except.ok r =>
                match processLines jsonLoads parse now host_name rest with
                | Except.error e => Except.error e
                | Except.ok rs => Except.ok (r :: rs)
        | some _ => Except.error "AttributeError: object has no attribute get"

/-- The remote branch of `DockerService.list_containers`: strip the captured
stdout, split it into lines and run the loop. -/
def list_containers_remote (jsonLoads : String → Option JVal) (parse : String → Option Int)
    (now : Int) (host_name : String) (output_str : String) : Except String (List ContainerRecord) :=
  processLines jsonLoads parse now host_name (pySplit (pyStrip output_str) "\n")

/-! ## Remote command executor and mutating operations -/

/-- Outcome of one remote command: captured stdout, stderr and exit status
(`ssh.exec_command` plus the stream reads). -/
structure ExecResult where
  stdout : String
  stderr : String
  exitStatus : Nat

/-- Remote branch of `DockerService.restart_container`
(docker_service.py:276-282): the command is issued and neither its exit
status nor its stderr is ever read, so the operation always reports success. -/
def restart_container_remote (exec : String → ExecResult) (container_id : String) :
    Except String Unit :=
  let _ := exec ("docker restart " ++ container_id)
  Except.ok ()

/-- Remote branch of `DockerService.stop_container` (docker_service.py:290-296). -/
def stop_container_remote (exec : String → ExecResult) (container_id : String) :
    Except String Unit :=
  let _ := exec ("docker stop " ++ container_id)
  Except.ok ()

/-- Remote branch of `DockerService.start_container` (docker_service.py:304-310). -/
def start_container_remote (exec : String → ExecResult) (container_id : String) :
    Except String Unit :=
  let _ := exec ("docker start " ++ container_id)
  Except.ok ()

/-- Remote branch of `DockerService.delete_image` (docker_service.py:418-428):
reads the exit status and raises with the captured stderr when non-zero. -/
def delete_image_remote (exec : String → ExecResult) (image_id : String) :
    Except String Unit :=
  let r := exec ("docker rmi " ++ image_id)
  if r.exitStatus != 0 then Except.error ("Failed to remove image: " ++ r.stderr)
  else Except.ok ()

/-- Remote branch of `DockerService.run_compose` (docker_service.py:395-409):
builds the compose command, reads the exit status and raises with the captured
stderr when non-zero, otherwise returns the captured stdout. -/
def run_compose_remote (exec : String → ExecResult) (path action : String) :
    Except String String :=
  let cmd_action := if action = "up" then "up -d" else "down"
  let r := exec ("cd " ++ path ++ " && docker-compose " ++ cmd_action)
  if r.exitStatus != 0 then Except.error ("Remote Compose failed: " ++ r.stderr)
  else Except.ok r.stdout

/-! ## Logs (docker_service.py:312-374) -/

/-- The tail argument handed to the local docker client: an integer or `all`. -/
inductive TailArg where
  | num (n : Int)
  | all

/-- Python `int(s)` on a string: optional surrounding whitespace, an optional
sign, then decimal digits; anything else raises `ValueError` (`none`). -/
def pyInt (s : String) : Option Int :=
  let t := pyStrip s
  let sd : Int × String :=
    if t.startsWith "-" then (-1, t.drop 1)
    else if t.startsWith "+" then (1, t.drop 1) else (1, t)
  if sd.2 ≠ "" ∧ sd.2.data.all Char.isDigit then
    (sd.2.toNat?).map (fun n => sd.1 * n)
  else none

/-- Keyword arguments built for `container.logs` in the local branch
(docker_service.py:321-333). -/
structure LogsQuery where
  tail : TailArg
  since : Option String
  until_ : Option String

/-- Truthiness of an optional string parameter (Python `if since:`). -/
def optStrTruthy : Option String → Bool
  | none => false
  | some s => s != ""

/-- An optional string parameter kept only when truthy. -/
def keepTruthy (o : Option String) : Option String :=
  match o with
  | some s => if s != "" then some s else none
  | none => none

/-- Local branch of `DockerService.get_logs` after the container lookup
(docker_service.py:321-343).  `containerLogs` models `container.logs(**kwargs)`
returning decoded text or raising; the `try` block converts a raised fetch
error into the inline text result. -/
def get_logs_local (containerLogs : LogsQuery → Except String String)
    (tail : String) (since until_ search : Option String) : String :=
  let t : TailArg :=
    if tail ≠ "all" then
      match pyInt tail with
      | some n => TailArg.num n
      | none => TailArg.all
    else TailArg.all
  let q : LogsQuery := { tail := t, since := keepTruthy since, until_ := keepTruthy until_ }
  match containerLogs q with
  | Except.ok logs =>
      (match search with
       | some s =>
           if s != "" then
             String.intercalate "\n"
               ((pySplit logs "\n").filter (fun line => strContains (pyLower line) (pyLower s)))
           else logs
       | none => logs)
  | Except.error e => "Error fetching logs: " ++ e

/-- The whole local `get_logs` call: the container lookup
(docker_service.py:319) happens before the `try` block, so a lookup failure
propagates to the caller. -/
def get_logs_local_full (getContainer : Except String Unit)
    (containerLogs : LogsQuery → Except String String)
    (tail : String) (since until_ search : Option String) : Except String String :=
  match getContainer with
  | Except.error e => Except.error e
  | Except.ok _ => Except.ok (get_logs_local containerLogs tail since until_ search)

/-- The shell command assembled by the remote branch of `get_logs`
(docker_service.py:347-367). -/
def build_remote_logs_command (container_id tail : String)
    (since until_ search : Option String) : String :=
  let parts : List String :=
    ["docker", "logs"]
      ++ [if tail ≠ "all" then "--tail " ++ tail else "--tail all"]
      ++ (match since with
          | some s => if s != "" then ["--since \x27" ++ s ++ "\x27"] else []
          | none => [])
      ++ (match until_ with
          | some u => if u != "" then ["--until \x27" ++ u ++ "\x27"] else []
          | none => [])
      ++ [container_id]
  let command := String.intercalate " " parts
  match search with
  | some s =>
      if s != "" then
        command ++ " | grep -i \x27" ++ String.mk (s.data.filter (fun ch => ch ≠ '\x27')) ++ "\x27"
      else command
  | none => command

/-- Remote branch of `DockerService.get_logs` (docker_service.py:345-374):
returns decoded stdout concatenated with decoded stderr; the exit status of
the channel is never read. -/
def get_logs_remote (exec : String → ExecResult) (container_id tail : String)
    (since until_ search : Option String) : String :=
  let r := exec (build_remote_logs_command container_id tail since until_ search)
  r.stdout ++ r.stderr

/-! ## SSH connection parameters (docker_service.py:156-180) -/

/-- A host row of the `docker_hosts` table (app/database.py:33-52); the
nullable columns are options. -/
structure DockerHost where
  name : String
  type : String
  ip : String
  port : Option Int
  ssh_user : String
  ssh_key_path : Option String
  ssh_password : Option String

/-- Which authentication credential ends up in `connect_kwargs`. -/
inductive SshAuth where
  | password (p : String)
  | keyfile (path : String)
  | agentDefault

/-- The keyword arguments `DockerService.get_ssh_client` passes to
`client.connect` (docker_service.py:163-172). -/
structure ConnectKwargs where
  hostname : String
  port : Int
  username : String
  auth : SshAuth

/-- Construction of `connect_kwargs`: `host.port or 22`, then password if
truthy, else key file if truthy, else neither. -/
def get_ssh_client_kwargs (host : DockerHost) : ConnectKwargs :=
  { hostname := host.ip
    port :=
      match host.port with
      | some p => if p != 0 then p else 22
      | none => 22
    username := host.ssh_user
    auth :=
      if optStrTruthy host.ssh_password then SshAuth.password (host.ssh_password.getD "")
      else if optStrTruthy host.ssh_key_path then SshAuth.keyfile (host.ssh_key_path.getD "")
      else SshAuth.agentDefault }

/-! ## Multi-host fan-out (app/routes/dashboard.py) -/

/-- One iteration of the fan-out loop: a successful host listing is extended
into the aggregate, a per-host exception is swallowed by
`except Exception: pass` (dashboard.py:63-67 and 382-386). -/
def aggStep (acc : List ContainerRecord) (r : Except String (List ContainerRecord)) :
    List ContainerRecord :=
  match r with
  | Except.ok cs => acc ++ cs
  | Except.error _ => acc

/-- Aggregation loop shared by `list_containers_filtered`
(dashboard.py:62-67) and `websocket_container_status` (dashboard.py:381-386):
each host listing is awaited inside `try`, successes are extended into the
aggregate and any per-host exception is swallowed. -/
def aggContainers (results : List (Except String (List ContainerRecord))) :
    List ContainerRecord :=
  results.foldl aggStep []

/-- The aggregate rendered by the `/containers/list` route when no host filter
is given (dashboard.py:58-67). -/
def list_containers_filtered_agg (results : List (Except String (List ContainerRecord))) :
    List ContainerRecord :=
  aggContainers results

/-- A message sent over the status websocket (dashboard.py:390-393 and
403-406). -/
inductive WsMessage where
  | statusUpdate (containers : List ContainerRecord)
  | errorMsg (message : String)

/-- The messages sent by one successful polling tick of
`websocket_container_status` (dashboard.py:376-396): exactly one
`status_update` envelope holding the aggregate; per-host failures add
nothing (the `errorMsg` form is only used when the tick itself fails). -/
def status_tick_messages (results : List (Except String (List ContainerRecord))) :
    List WsMessage :=
  [WsMessage.statusUpdate (aggContainers results)]

/-! ## Shared concrete objects used by witnesses and counterexamples -/

/-- A parse function used by concrete checks: it recognises one fixed
ISO timestamp (start instant 0) and rejects everything else. -/
def demoParse : String → Option Int :=
  fun s => if s = "2026-01-01T00:00:00+00:00" then some 0 else none

/-- An executor whose every command fails with exit status 1 and a stderr
diagnostic. -/
def failingExec : String → ExecResult :=
  fun _ => { stdout := "", stderr := "permission denied", exitStatus := 1 }

/-- A concrete container record for host H1. -/
def recH1 : ContainerRecord :=
  { id := JVal.str "aaa111bbb222", name := "web", image := JVal.str "nginx",
    state := JVal.str "running", status := JVal.str "Up 2 hours", ports := "",
    created := JVal.str "2026-01-01 00:00:00", host := "H1", compose_path := JVal.str "" }

/-! ## C5: remote mutating operations on non-zero exit status -/

/-- C5 (amended): among the remote mutating operations only `deleteImage` and
`runCompose` check the exit status and raise an error carrying the captured
stderr; `restart`, `stop` and `start` never read the exit status and report
success even when the command failed. -/
theorem C5_remote_mutations_amended (exec : String → ExecResult)
    (cid iid path action : String)
    (hdel : (exec ("docker rmi " ++ iid)).exitStatus ≠ 0)
    (hcmp : (exec ("cd " ++ path ++ " && docker-compose " ++
        (if action = "up" then "up -d" else "down"))).exitStatus ≠ 0) :
    delete_image_remote exec iid
      = Except.error ("Failed to remove image: " ++ (exec ("docker rmi " ++ iid)).stderr)
  ∧ run_compose_remote exec path action
      = Except.error ("Remote Compose failed: " ++ (exec ("cd " ++ path ++ " && docker-compose " ++
          (if action = "up" then "up -d" else "down"))).stderr)
  ∧ restart_container_remote exec cid = Except.ok ()
  ∧ stop_container_remote exec cid = Except.ok ()
  ∧ start_container_remote exec cid = Except.ok () := by
  refine ⟨?_, ?_, rfl, rfl, rfl⟩
  · unfold delete_image_remote
    simp [hdel]
  · unfold run_compose_remote
    simp [hcmp]

/-- C5 counterexample: a remote `restart` whose command exits with status 1
still reports success, so the claim that every remote mutating operation
raises a typed error on non-zero exit is false. -/
theorem C5_counterexample :
    restart_container_remote failingExec "abc123" = Except.ok ()
  ∧ stop_container_remote failingExec "abc123" = Except.ok ()
  ∧ start_container_remote failingExec "abc123" = Except.ok ()
  ∧ (failingExec "docker restart abc123").exitStatus = 1 :=
  ⟨rfl, rfl, rfl, rfl⟩

/-- Witness for C5: the amended theorem applied to the concrete failing
executor. -/
theorem C5_witness :
    delete_image_remote failingExec "img1" = Except.error "Failed to remove image: permission denied"
  ∧ run_compose_remote failingExec "/srv" "up" = Except.error "Remote Compose failed: permission denied"
  ∧ restart_container_remote failingExec "c1" = Except.ok ()
  ∧ stop_container_remote failingExec "c1" = Except.ok ()
  ∧ start_container_remote failingExec "c1" = Except.ok () :=
  C5_remote_mutations_amended failingExec "c1" "img1" "/srv" "up"
    (by decide) (by decide)

/-! ## C8: SSH credential preference -/

/-- C8: when both `ssh_password` and `ssh_key_path` are configured non-empty
the connection keywords carry password authentication; when only one
credential is set, that credential is used. -/
theorem C8_ssh_auth_preference (host : DockerHost) :
    (∀ p k, host.ssh_password = some p → p ≠ "" →
        host.ssh_key_path = some k → k ≠ "" →
        (get_ssh_client_kwargs host).auth = SshAuth.password p)
  ∧ (∀ p, host.ssh_password = some p → p ≠ "" →
        (get_ssh_client_kwargs host).auth = SshAuth.password p)
  ∧ (∀ k, optStrTruthy host.ssh_password = false →
        host.ssh_key_path = some k → k ≠ "" →
        (get_ssh_client_kwargs host).auth = SshAuth.keyfile k) := by
  refine ⟨fun p k hp hpne _ _ => ?_, fun p hp hpne => ?_, fun k hpw hk hkne => ?_⟩
  · unfold get_ssh_client_kwargs
    simp [optStrTruthy, hp, hpne]
  · unfold get_ssh_client_kwargs
    simp [optStrTruthy, hp, hpne]
  · unfold get_ssh_client_kwargs
    rw [hpw]
    simp [optStrTruthy, hk, hkne]

/-- A remote host with both credentials configured. -/
def hostBoth : DockerHost :=
  { name := "r1", type := "ssh", ip := "10.0.0.1", port := some 22, ssh_user := "root",
    ssh_key_path := some "/root/.ssh/id_rsa", ssh_password := some "pw" }

/-- A remote host with only a password. -/
def hostPwOnly : DockerHost :=
  { name := "r2", type := "ssh", ip := "10.0.0.2", port := none, ssh_user := "root",
    ssh_key_path := none, ssh_password := some "pw" }

/-- A remote host with only a key file. -/
def hostKeyOnly : DockerHost :=
  { name := "r3", type := "ssh", ip := "10.0.0.3", port := some 2222, ssh_user := "root",
    ssh_key_path := some "/root/.ssh/id_rsa", ssh_password := none }

/-- Witness for C8 at the three concrete hosts. -/
theorem C8_witness :
    (get_ssh_client_kwargs hostBoth).auth = SshAuth.password "pw"
  ∧ (get_ssh_client_kwargs hostPwOnly).auth = SshAuth.password "pw"
  ∧ (get_ssh_client_kwargs hostKeyOnly).auth = SshAuth.keyfile "/root/.ssh/id_rsa" :=
  ⟨(C8_ssh_auth_preference hostBoth).1 "pw" "/root/.ssh/id_rsa" rfl (by decide) rfl (by decide),
   (C8_ssh_auth_preference hostPwOnly).2.1 "pw" rfl (by decide),
   (C8_ssh_auth_preference hostKeyOnly).2.2 "/root/.ssh/id_rsa" rfl rfl (by decide)⟩

/-! ## C10: get_logs error handling -/

/-- C10: a failure of the local log fetch is converted into the inline
result text instead of propagating; the remote variant returns stdout
concatenated with stderr and is insensitive to the exit status. -/
theorem C10_get_logs_error_handling
    (containerLogs : LogsQuery → Except String String)
    (tail : String) (since until_ search : Option String)
    (exec exec2 : String → ExecResult) (cid e : String)
    (hfail : ∀ q, containerLogs q = Except.error e) :
    get_logs_local_full (Except.ok ()) containerLogs tail since until_ search
      = Except.ok ("Error fetching logs: " ++ e)
  ∧ get_logs_remote exec cid tail since until_ search
      = (exec (build_remote_logs_command cid tail since until_ search)).stdout
        ++ (exec (build_remote_logs_command cid tail since until_ search)).stderr
  ∧ ((∀ cmd, (exec cmd).stdout = (exec2 cmd).stdout ∧ (exec cmd).stderr = (exec2 cmd).stderr) →
        get_logs_remote exec cid tail since until_ search
          = get_logs_remote exec2 cid tail since until_ search) := by
  refine ⟨?_, rfl, fun hagree => ?_⟩
  · simp [get_logs_local_full, get_logs_local, hfail]
  · show (exec (build_remote_logs_command cid tail since until_ search)).stdout
        ++ (exec (build_remote_logs_command cid tail since until_ search)).stderr
      = (exec2 (build_remote_logs_command cid tail since until_ search)).stdout
        ++ (exec2 (build_remote_logs_command cid tail since until_ search)).stderr
    rw [(hagree _).1, (hagree _).2]

/-- A local log fetch that always raises. -/
def failingLogs : LogsQuery → Except String String := fun _ => Except.error "boom"

/-- An executor returning fixed output with a non-zero status. -/
def constExec : String → ExecResult :=
  fun _ => { stdout := "out", stderr := "err", exitStatus := 3 }

/-- The same output with a zero status. -/
def constExecOk : String → ExecResult :=
  fun _ => { stdout := "out", stderr := "err", exitStatus := 0 }

/-- Witness for C10 at concrete functions. -/
theorem C10_witness :
    get_logs_local_full (Except.ok ()) failingLogs "100" none none none
      = Except.ok "Error fetching logs: boom"
  ∧ get_logs_remote constExec "c1" "100" none none none = "outerr"
  ∧ get_logs_remote constExec "c1" "100" none none none
      = get_logs_remote constExecOk "c1" "100" none none none := by
  obtain ⟨h1, h2, h3⟩ :=
    C10_get_logs_error_handling failingLogs "100" none none none
      constExec constExecOk "c1" "boom" (fun _ => rfl)
  exact ⟨h1, h2.trans rfl, h3 (fun _ => ⟨rfl, rfl⟩)⟩

/-! ## C4: fan-out aggregation -/

/-- The contribution of one host result to the aggregate. -/
def okPart : Except String (List ContainerRecord) → List ContainerRecord
  | Except.ok cs => cs
  | Except.error _ => []

theorem aggStep_eq (acc : List ContainerRecord) (r : Except String (List ContainerRecord)) :
    aggStep acc r = acc ++ okPart r := by
  cases r <;> simp [aggStep, okPart]

theorem foldl_aggStep_acc (rs : List (Except String (List ContainerRecord))) :
    ∀ acc, rs.foldl aggStep acc = acc ++ rs.foldl aggStep [] := by
  induction rs with
  | nil => intro acc; simp
  | cons r rest ih =>
      intro acc
      show rest.foldl aggStep (aggStep acc r) = acc ++ rest.foldl aggStep (aggStep [] r)
      rw [ih (aggStep acc r), ih (aggStep [] r), aggStep_eq, aggStep_eq]
      simp

theorem aggContainers_append (a b : List (Except String (List ContainerRecord))) :
    aggContainers (a ++ b) = aggContainers a ++ aggContainers b := by
  unfold aggContainers
  rw [List.foldl_append, foldl_aggStep_acc b (a.foldl aggStep [])]

/-- C4 counterexample: over H1 (one container) and H2 (raising), the status
websocket tick sends exactly one `status_update` message holding H1's record;
no error entry referencing H2 exists anywhere in the output, and the filtered
listing aggregate likewise records nothing about H2. -/
theorem C4_counterexample :
    status_tick_messages [Except.ok [recH1], Except.error "H2 unreachable"]
      = [WsMessage.statusUpdate [recH1]]
  ∧ list_containers_filtered_agg [Except.ok [recH1], Except.error "H2 unreachable"]
      = [recH1] :=
  ⟨rfl, rfl⟩

/-- C4 (amended): a failing host contributes nothing to the aggregate (and no
error entry either): the tick output with the failure is identical to the
tick output with the failing host removed, every successful host's full
container set appears contiguously in the aggregate, and the aggregate is
non-empty whenever some host succeeds with a non-empty set. -/
theorem C4_fanout_amended (pre post : List (Except String (List ContainerRecord)))
    (e : String) (cs : List ContainerRecord) :
    status_tick_messages (pre ++ [Except.error e] ++ post)
      = status_tick_messages (pre ++ post)
  ∧ list_containers_filtered_agg (pre ++ [Except.error e] ++ post)
      = list_containers_filtered_agg (pre ++ post)
  ∧ (∃ a b, aggContainers (pre ++ [Except.ok cs, Except.error e] ++ post) = a ++ cs ++ b)
  ∧ (cs ≠ [] → aggContainers (pre ++ [Except.ok cs, Except.error e] ++ post) ≠ []) := by
  have h1 : aggContainers (pre ++ [Except.error e] ++ post) = aggContainers (pre ++ post) := by
    rw [aggContainers_append, aggContainers_append, aggContainers_append]
    have : aggContainers [Except.error e] = [] := rfl
    rw [this, List.append_nil]
  have h2 : aggContainers (pre ++ [Except.ok cs, Except.error e] ++ post)
      = aggContainers pre ++ (cs ++ aggContainers post) := by
    rw [aggContainers_append, aggContainers_append]
    have : aggContainers [Except.ok cs, Except.error e] = cs := by
      simp [aggContainers, aggStep]
    rw [this, List.append_assoc]
  refine ⟨?_, ?_, ⟨aggContainers pre, aggContainers post, ?_⟩, fun hcs hemp => ?_⟩
  · unfold status_tick_messages
    rw [h1]
  · unfold list_containers_filtered_agg
    rw [h1]
  · rw [h2, List.append_assoc]
  · rw [h2] at hemp
    rcases List.append_eq_nil.mp hemp with ⟨_, h3⟩
    rcases List.append_eq_nil.mp h3 with ⟨h4, _⟩
    exact hcs h4

/-- Witness for C4 at a concrete fan-out. -/
theorem C4_witness :
    (∃ a b, aggContainers ([] ++ [Except.ok [recH1], Except.error "x"] ++ []) = a ++ [recH1] ++ b)
  ∧ aggContainers ([] ++ [Except.ok [recH1], Except.error "x"] ++ []) ≠ [] :=
  ⟨(C4_fanout_amended [] [] "x" [recH1]).2.2.1,
   (C4_fanout_amended [] [] "x" [recH1]).2.2.2 (by simp)⟩

/-! ## Inversion of a successful normalization -/

/-- A successful `format_container` run determines every field of the record
from the section functions. -/
theorem format_container_ok_inv (parse : String → Option Int) (now : Int)
    (host_name : String) (c : JObj) (r : ContainerRecord)
    (hr : format_container parse now host_name c = Except.ok r) :
    ∃ name ports created compose idv,
      nameOf c = Except.ok name ∧ portsOf c = Except.ok ports ∧
      createdOf c = Except.ok created ∧ composePathOf c = Except.ok compose ∧
      idOf c = Except.ok idv ∧
      r = { id := idv, name := name, image := imageOf c, state := stateOf c,
            status := statusOf parse now c (stateOf c), ports := ports,
            created := created, host := host_name, compose_path := compose } := by
  unfold format_container at hr
  rcases hn : nameOf c with e | name <;> rw [hn] at hr
  · simp [Except.bind] at hr
  rcases hp : portsOf c with e | ports <;> rw [hp] at hr
  · simp [Except.bind] at hr
  rcases hcr : createdOf c with e | created <;> rw [hcr] at hr
  · simp [Except.bind] at hr
  rcases hcp : composePathOf c with e | compose <;> rw [hcp] at hr
  · simp [Except.bind] at hr
  rcases hid : idOf c with e | idv <;> rw [hid] at hr
  · simp [Except.bind, Except.map] at hr
  · simp [Except.bind, Except.map] at hr
    exact ⟨name, ports, created, compose, idv, rfl, rfl, rfl, rfl, rfl, hr.symm⟩

/-! ## C3: uptime bucketing -/

theorem up_string_ne_empty (a b : String) : ("Up " ++ a ++ b) ≠ "" := by
  intro heq
  have hlen := congrArg String.length heq
  simp only [String.length_append] at hlen
  have h3 : ("Up " : String).length = 3 := rfl
  have h0 : ("" : String).length = 0 := rfl
  omega

theorem uptimeText_truthy (d h m : Int) :
    JVal.truthy (JVal.str (uptimeText d h m)) = true := by
  simp only [JVal.truthy, bne_iff_ne, ne_eq, decide_eq_true_eq]
  unfold uptimeText
  split
  · exact up_string_ne_empty _ _
  split
  · exact up_string_ne_empty _ _
  split
  · exact up_string_ne_empty _ _
  · decide

/-- A concrete running payload whose start instant `demoParse` maps to 0. -/
def demoRunning : JObj :=
  [("State", JVal.obj [("Status", JVal.str "running"),
                       ("StartedAt", JVal.str "2026-01-01T00:00:00Z")])]

/-- Evaluation of the status section when no status is supplied and a
structured state with a truthy start timestamp is present. -/
theorem statusOf_eval (parse : String → Option Int) (now : Int) (c : JObj)
    (state : JVal) (st : JObj) (sa : String)
    (hStatus : JVal.truthy (jget c "Status") = false)
    (hState : jlookup c "State" = some (JVal.obj st))
    (hSA : jlookup st "StartedAt" = some (JVal.str sa))
    (hsa : sa ≠ "") :
    statusOf parse now c state
      = (if JVal.truthy (tryStatus parse now (JVal.str sa) state) then
           tryStatus parse now (JVal.str sa) state
         else JVal.str "Unknown") := by
  have hsat : JVal.truthy (JVal.str sa) = true := by
    simp [JVal.truthy, hsa]
  simp only [statusOf, hStatus, hState, hSA, Option.getD_some, Bool.false_eq_true,
    if_false, hsat, if_true]

/-- C3: with no supplied status, a structured state carrying a parseable
start timestamp and a state token, the status text produced by
`format_container` is the uptime bucket of the elapsed seconds when the
state is running (case-insensitively), `Exited` for a non-running state, and
`Unknown` on a parse failure; concretely 90 minutes gives `Up 1 hours`,
30 seconds gives `Up < 1 min` and 2 days 3 hours gives `Up 2 days`. -/
theorem C3_uptime_bucketing (parse : String → Option Int) (now start : Int)
    (host_name : String) (c : JObj) (st : JObj) (sa stv : String)
    (hStatus : JVal.truthy (jget c "Status") = false)
    (hState : jlookup c "State" = some (JVal.obj st))
    (hSA : jlookup st "StartedAt" = some (JVal.str sa))
    (hsa : sa ≠ "")
    (hStv : jlookup st "Status" = some (JVal.str stv)) :
    (∀ r, format_container parse now host_name c = Except.ok r →
        r.status = statusOf parse now c (stateOf c))
  ∧ (parse (replaceZ sa) = some start → pyLower stv = "running" → 0 ≤ now - start →
        statusOf parse now c (stateOf c) = JVal.str (
          if (now - start).fdiv 86400 > 0 then
            "Up " ++ toString ((now - start).fdiv 86400) ++ " days"
          else if ((now - start).fmod 86400).fdiv 3600 > 0 then
            "Up " ++ toString (((now - start).fmod 86400).fdiv 3600) ++ " hours"
          else if (((now - start).fmod 86400).fmod 3600).fdiv 60 > 0 then
            "Up " ++ toString ((((now - start).fmod 86400).fmod 3600).fdiv 60) ++ " mins"
          else "Up < 1 min"))
  ∧ (parse (replaceZ sa) = some start → pyLower stv ≠ "running" →
        statusOf parse now c (stateOf c) = JVal.str "Exited")
  ∧ (parse (replaceZ sa) = none →
        statusOf parse now c (stateOf c) = JVal.str "Unknown")
  ∧ statusOf demoParse 5400 demoRunning (stateOf demoRunning) = JVal.str "Up 1 hours"
  ∧ statusOf demoParse 30 demoRunning (stateOf demoRunning) = JVal.str "Up < 1 min"
  ∧ statusOf demoParse 183600 demoRunning (stateOf demoRunning) = JVal.str "Up 2 days" := by
  have hstate_eval : stateOf c = JVal.str stv := by
    unfold stateOf
    rw [hState]
    show (jlookup st "Status").getD (JVal.str "unknown") = JVal.str stv
    rw [hStv]
    rfl
  have heval := statusOf_eval parse now c (stateOf c) st sa hStatus hState hSA hsa
  refine ⟨?_, ?_, ?_, ?_, rfl, rfl, rfl⟩
  · intro r hr
    obtain ⟨name, ports, created, compose, idv, _, _, _, _, _, hrec⟩ :=
      format_container_ok_inv parse now host_name c r hr
    rw [hrec]
  · intro hparse hrun _
    have htry : tryStatus parse now (JVal.str sa) (stateOf c)
        = JVal.str (uptimeText ((now - start).fdiv 86400)
            (((now - start).fmod 86400).fdiv 3600)
            ((((now - start).fmod 86400).fmod 3600).fdiv 60)) := by
      show (match parse (replaceZ sa) with
            | some start0 =>
                match stateOf c with
                | JVal.str st2 =>
                    if pyLower st2 = "running" then
                      JVal.str (uptimeText ((now - start0).fdiv 86400)
                        (((now - start0).fmod 86400).fdiv 3600)
                        ((((now - start0).fmod 86400).fmod 3600).fdiv 60))
                    else JVal.str "Exited"
                | _ => JVal.str "Unknown"
            | none => JVal.str "Unknown")
          = JVal.str (uptimeText ((now - start).fdiv 86400)
              (((now - start).fmod 86400).fdiv 3600)
              ((((now - start).fmod 86400).fmod 3600).fdiv 60))
      rw [hparse, hstate_eval]
      simp [hrun]
    rw [heval, htry, uptimeText_truthy]
    simp only [if_true]
    rfl
  · intro hparse hnrun
    have htry : tryStatus parse now (JVal.str sa) (stateOf c) = JVal.str "Exited" := by
      show (match parse (replaceZ sa) with
            | some start0 =>
                match stateOf c with
                | JVal.str st2 =>
                    if pyLower st2 = "running" then
                      JVal.str (uptimeText ((now - start0).fdiv 86400)
                        (((now - start0).fmod 86400).fdiv 3600)
                        ((((now - start0).fmod 86400).fmod 3600).fdiv 60))
                    else JVal.str "Exited"
                | _ => JVal.str "Unknown"
            | none => JVal.str "Unknown")
          = JVal.str "Exited"
      rw [hparse, hstate_eval]
      simp [hnrun]
    rw [heval, htry]
    rfl
  · intro hparse
    have htry : tryStatus parse now (JVal.str sa) (stateOf c) = JVal.str "Unknown" := by
      show (match parse (replaceZ sa) with
            | some start0 =>
                match stateOf c with
                | JVal.str st2 =>
                    if pyLower st2 = "running" then
                      JVal.str (uptimeText ((now - start0).fdiv 86400)
                        (((now - start0).fmod 86400).fdiv 3600)
                        ((((now - start0).fmod 86400).fmod 3600).fdiv 60))
                    else JVal.str "Exited"
                | _ => JVal.str "Unknown"
            | none => JVal.str "Unknown")
          = JVal.str "Unknown"
      rw [hparse]
    rw [heval, htry]
    rfl

/-- Witness for C3: all hypothesis-bearing parts applied to the concrete
running payload at the three reference offsets and to non-running and
non-parseable variants. -/
theorem C3_witness :
    statusOf demoParse 5400 demoRunning (stateOf demoRunning) = JVal.str "Up 1 hours"
  ∧ statusOf demoParse 183600 demoRunning (stateOf demoRunning)
      = JVal.str (if (183600 : Int).fdiv 86400 > 0 then
            "Up " ++ toString ((183600 : Int).fdiv 86400) ++ " days"
          else if ((183600 : Int).fmod 86400).fdiv 3600 > 0 then
            "Up " ++ toString (((183600 : Int).fmod 86400).fdiv 3600) ++ " hours"
          else if (((183600 : Int).fmod 86400).fmod 3600).fdiv 60 > 0 then
            "Up " ++ toString ((((183600 : Int).fmod 86400).fmod 3600).fdiv 60) ++ " mins"
          else "Up < 1 min") := by
  obtain ⟨_, hbucket, _, _, h90, _, _⟩ :=
    C3_uptime_bucketing demoParse 183600 0 "h" demoRunning
      [("Status", JVal.str "running"), ("StartedAt", JVal.str "2026-01-01T00:00:00Z")]
      "2026-01-01T00:00:00Z" "running" rfl rfl rfl (by decide) rfl
  exact ⟨h90, by simpa using hbucket rfl rfl (by decide)⟩

/-! ## C9: remote listings never carry a compose path -/

/-- The remapped CLI payload has neither a `Config` nor a `Labels` key, so
the labels fall back to the empty dict. -/
theorem composePathOf_remapCli (d : JObj) :
    composePathOf (remapCli d) = Except.ok (JVal.str "") := rfl

/-- Any record normalized from a remapped CLI payload has an empty compose
path. -/
theorem format_remapCli_compose (parse : String → Option Int) (now : Int)
    (host_name : String) (d : JObj) (r : ContainerRecord)
    (hr : format_container parse now host_name (remapCli d) = Except.ok r) :
    r.compose_path = JVal.str "" := by
  obtain ⟨name, ports, created, compose, idv, _, _, _, hcp, _, hrec⟩ :=
    format_container_ok_inv parse now host_name (remapCli d) r hr
  rw [composePathOf_remapCli] at hcp
  rw [hrec]
  exact (Except.ok.injEq _ _).mp hcp.symm

/-- Every record produced by the remote line loop has an empty compose path. -/
theorem processLines_compose (jsonLoads : String → Option JVal)
    (parse : String → Option Int) (now : Int) (host_name : String) :
    ∀ lines recs, processLines jsonLoads parse now host_name lines = Except.ok recs →
      ∀ r ∈ recs, r.compose_path = JVal.str "" := by
  intro lines
  induction lines with
  | nil =>
      intro recs hok r hr
      unfold processLines at hok
      obtain rfl : ([] : List ContainerRecord) = recs := (Except.ok.injEq _ _).mp hok
      simp at hr
  | cons line rest ih =>
      intro recs hok r hr
      unfold processLines at hok
      by_cases hline : line = ""
      · rw [if_pos hline] at hok
        exact ih recs hok r hr
      · rw [if_neg hline] at hok
        cases hjl : jsonLoads line with
        | none =>
            rw [hjl] at hok
            exact ih recs hok r hr
        | some v =>
            rw [hjl] at hok
            cases v with
            | obj d =>
                have hok2 : (match format_container parse now host_name (remapCli d) with
                    | Except.error e => Except.error e
                    | Except.ok r0 =>
                        match processLines jsonLoads parse now host_name rest with
                        | Except.error e => Except.error e
                        | Except.ok rs => Except.ok (r0 :: rs)) = Except.ok recs := hok
                cases hfc : format_container parse now host_name (remapCli d) with
                | error e =>
                    rw [hfc] at hok2
                    exact Except.noConfusion hok2
                | ok r0 =>
                    rw [hfc] at hok2
                    cases hrest : processLines jsonLoads parse now host_name rest with
                    | error e =>
                        rw [hrest] at hok2
                        exact Except.noConfusion hok2
                    | ok rs =>
                        rw [hrest] at hok2
                        obtain rfl : r0 :: rs = recs := (Except.ok.injEq _ _).mp hok2
                        rcases List.mem_cons.mp hr with rfl | hmem
                        · exact format_remapCli_compose parse now host_name d r hfc
                        · exact ih rs hrest r hmem
            | null => exact Except.noConfusion hok
            | bool b => exact Except.noConfusion hok
            | num n => exact Except.noConfusion hok
            | str s => exact Except.noConfusion hok
            | arr l => exact Except.noConfusion hok

/-- C9: every ContainerRecord produced by a remote (SSH-backed) container
listing has an empty compose path, because the key remapping drops the
`Labels` field before normalization. -/
theorem C9_remote_compose_path_empty (jsonLoads : String → Option JVal)
    (parse : String → Option Int) (now : Int) (host_name output_str : String)
    (recs : List ContainerRecord)
    (hok : list_containers_remote jsonLoads parse now host_name output_str = Except.ok recs) :
    ∀ r ∈ recs, r.compose_path = JVal.str "" := by
  unfold list_containers_remote at hok
  exact processLines_compose jsonLoads parse now host_name _ recs hok

/-- A decoder recognising two fixed well-formed CLI lines. -/
def demoLoads : String → Option JVal :=
  fun l =>
    if l = "good1" then
      some (JVal.obj [("ID", JVal.str "aaa111bbb222ccc"), ("Names", JVal.str "web"),
                      ("Image", JVal.str "nginx"), ("State", JVal.str "running"),
                      ("Status", JVal.str "Up 2 hours"), ("Ports", JVal.str ""),
                      ("CreatedAt", JVal.str "2026-01-01 00:00:00 +0000 UTC"),
                      ("Labels", JVal.str "com.docker.compose.project.working_dir=/srv/app")])
    else if l = "good2" then
      some (JVal.obj [("ID", JVal.str "ddd444eee555fff"), ("Names", JVal.str "db"),
                      ("Image", JVal.str "postgres"), ("State", JVal.str "exited"),
                      ("Status", JVal.str "Exited (0) 3 days ago"), ("Ports", JVal.str ""),
                      ("CreatedAt", JVal.str "2026-01-02 00:00:00 +0000 UTC"),
                      ("Labels", JVal.str "")])
    else none

/-- The record the remote loop produces from the first demo line. -/
def recRemote1 : ContainerRecord :=
  { id := JVal.str "aaa111bbb222", name := "web",
    image := JVal.str "nginx", state := JVal.str "running",
    status := JVal.str "Up 2 hours", ports := "",
    created := JVal.str "2026-01-01 00:00:00", host := "h",
    compose_path := JVal.str "" }

/-- Witness for C9: a concrete remote listing whose input line even carries a
compose label, which the remapping drops. -/
theorem C9_witness :
    (list_containers_remote demoLoads demoParse 0 "h" "good1").map
      (fun rs => rs.map (fun r => r.compose_path)) = Except.ok [JVal.str ""] := by
  have hok : list_containers_remote demoLoads demoParse 0 "h" "good1"
      = Except.ok [recRemote1] := rfl
  have hall := C9_remote_compose_path_empty demoLoads demoParse 0 "h" "good1" _ hok
  rw [hok]
  simp only [Except.map, List.map_cons, List.map_nil]
  rw [hall _ (by simp)]

/-! ## C6: a malformed JSON line is skipped, not fatal -/

/-- The line loop succeeds on a list of well-formed lines and yields one
record per line. -/
theorem processLines_all_good (jsonLoads : String → Option JVal)
    (parse : String → Option Int) (now : Int) (host_name : String) :
    ∀ lines, (∀ l ∈ lines, l ≠ "" ∧ ∃ d r, jsonLoads l = some (JVal.obj d) ∧
        format_container parse now host_name (remapCli d) = Except.ok r) →
      ∃ recs, processLines jsonLoads parse now host_name lines = Except.ok recs
        ∧ recs.length = lines.length := by
  intro lines
  induction lines with
  | nil => exact fun _ => ⟨[], rfl, rfl⟩
  | cons l rest ih =>
      intro hall
      obtain ⟨hne, d, r, hjl, hfc⟩ := hall l (by simp)
      obtain ⟨recs, hok, hlen⟩ := ih (fun x hx => hall x (List.mem_cons_of_mem l hx))
      refine ⟨r :: recs, ?_, by simp [hlen]⟩
      unfold processLines
      rw [if_neg hne, hjl]
      show (match format_container parse now host_name (remapCli d) with
            | Except.error e => Except.error e
            | Except.ok r0 =>
                match processLines jsonLoads parse now host_name rest with
                | Except.error e => Except.error e
                | Except.ok rs => Except.ok (r0 :: rs)) = Except.ok (r :: recs)
      rw [hfc, hok]

/-- The line loop with one malformed line among well-formed ones: the
malformed line is skipped individually. -/
theorem processLines_skip_mid (jsonLoads : String → Option JVal)
    (parse : String → Option Int) (now : Int) (host_name : String) (m : String)
    (hm : m ≠ "") (hmbad : jsonLoads m = none) :
    ∀ pre post,
      (∀ l ∈ pre ++ post, l ≠ "" ∧ ∃ d r, jsonLoads l = some (JVal.obj d) ∧
          format_container parse now host_name (remapCli d) = Except.ok r) →
      ∃ recs, processLines jsonLoads parse now host_name (pre ++ m :: post) = Except.ok recs
        ∧ recs.length = pre.length + post.length := by
  intro pre
  induction pre with
  | nil =>
      intro post hall
      obtain ⟨recs, hok, hlen⟩ := processLines_all_good jsonLoads parse now host_name post hall
      refine ⟨recs, ?_, by simpa using hlen⟩
      show processLines jsonLoads parse now host_name (m :: post) = Except.ok recs
      unfold processLines
      rw [if_neg hm, hmbad]
      exact hok
  | cons l pre ih =>
      intro post hall
      obtain ⟨hne, d, r, hjl, hfc⟩ := hall l (by simp)
      obtain ⟨recs, hok, hlen⟩ := ih post (fun x hx => hall x (List.mem_cons_of_mem l hx))
      refine ⟨r :: recs, ?_, by simp [hlen]; omega⟩
      show processLines jsonLoads parse now host_name (l :: (pre ++ m :: post)) = Except.ok (r :: recs)
      unfold processLines
      rw [if_neg hne, hjl]
      show (match format_container parse now host_name (remapCli d) with
            | Except.error e => Except.error e
            | Except.ok r0 =>
                match processLines jsonLoads parse now host_name (pre ++ m :: post) with
                | Except.error e => Except.error e
                | Except.ok rs => Except.ok (r0 :: rs)) = Except.ok (r :: recs)
      rw [hfc, hok]

/-- C6: a remote listing whose stripped output splits into N well-formed CLI
JSON lines with one malformed line interleaved yields exactly N normalized
records: the malformed line is skipped and the batch is neither aborted nor
truncated. -/
theorem C6_malformed_line_skipped (jsonLoads : String → Option JVal)
    (parse : String → Option Int) (now : Int) (host_name output_str : String)
    (pre post : List String) (m : String)
    (hsplit : pySplit (pyStrip output_str) "\n" = pre ++ m :: post)
    (hm : m ≠ "") (hmbad : jsonLoads m = none)
    (hgood : ∀ l ∈ pre ++ post, l ≠ "" ∧ ∃ d r, jsonLoads l = some (JVal.obj d) ∧
        format_container parse now host_name (remapCli d) = Except.ok r) :
    ∃ recs, list_containers_remote jsonLoads parse now host_name output_str = Except.ok recs
      ∧ recs.length = pre.length + post.length := by
  unfold list_containers_remote
  rw [hsplit]
  exact processLines_skip_mid jsonLoads parse now host_name m hm hmbad pre post hgood

/-- Witness for C6: two well-formed demo lines with a malformed line between
them yield exactly two records. -/
theorem C6_witness :
    (list_containers_remote demoLoads demoParse 0 "h" "good1\nBAD\ngood2").map
      (fun rs => rs.length) = Except.ok 2 := by
  obtain ⟨recs, hok, hlen⟩ :=
    C6_malformed_line_skipped demoLoads demoParse 0 "h" "good1\nBAD\ngood2"
      ["good1"] ["good2"] "BAD" rfl (by decide) rfl
      (by
        intro l hl
        rcases List.mem_cons.mp hl with rfl | hl2
        · exact ⟨by decide, _, _, rfl, rfl⟩
        rcases List.mem_cons.mp hl2 with rfl | hl3
        · exact ⟨by decide, _, _, rfl, rfl⟩
        · simp at hl3)
  rw [hok]
  simp only [Except.map]
  rw [hlen]
  rfl

/-! ## C7: permissive label-string parsing -/

theorem find?_append_of_none {α : Type} (p : α → Bool) (l₁ l₂ : List α)
    (h : l₁.find? p = none) : (l₁ ++ l₂).find? p = l₂.find? p := by
  induction l₁ with
  | nil => rfl
  | cons a as ih =>
      by_cases hp : p a
      · rw [List.find?_cons_of_pos _ hp] at h
        exact Option.noConfusion h
      · rw [List.find?_cons_of_neg _ hp] at h
        rw [List.cons_append, List.find?_cons_of_neg _ hp]
        exact ih h

/-- Setting a key different from `key` does not make `key` appear. -/
theorem jlookup_dictSetJ_ne (d : List (String × JVal)) (k : String) (v : JVal)
    (key : String) (hne : k ≠ key) (h : jlookup d key = none) :
    jlookup (dictSetJ d k v) key = none := by
  unfold jlookup at h ⊢
  have hfind : d.find? (fun q => q.1 == key) = none := by
    rcases hf : d.find? (fun q => q.1 == key) with _ | q
    · exact hf
    · rw [hf] at h
      simp at h
  have hall := List.find?_eq_none.mp hfind
  unfold dictSetJ
  by_cases hany : d.any (fun p => p.1 == k)
  · rw [if_pos hany]
    suffices hfn : (d.map (fun p => if p.1 == k then (k, v) else p)).find?
        (fun q => q.1 == key) = none by
      rw [hfn]
      rfl
    apply List.find?_eq_none.mpr
    intro x hx
    obtain ⟨p, hp, rfl⟩ := List.mem_map.mp hx
    by_cases hpk : (p.1 == k) = true
    · simp only [hpk, if_true]
      simp [hne]
    · simp only [hpk, if_false]
      exact hall p hp
  · rw [if_neg hany]
    suffices hfn : ((d ++ [(k, v)]).find? (fun q => q.1 == key)) = none by
      rw [hfn]
      rfl
    apply List.find?_eq_none.mpr
    intro x hx
    rcases List.mem_append.mp hx with hx1 | hx1
    · exact hall x hx1
    · have hxkv : x = (k, v) := by simpa using hx1
      rw [hxkv]
      simp [hne]

/-- A label segment whose parsed key differs from the compose key leaves the
compose key absent. -/
theorem labelStep_preserve (lbls : List (String × JVal)) (part : String)
    (hpart : strContains part "=" = true → pyStrip (splitFirstEq part).1 ≠ composeKey)
    (h : jlookup lbls composeKey = none) :
    jlookup (labelStep lbls part) composeKey = none := by
  unfold labelStep
  by_cases hc : strContains part "=" = true
  · rw [if_pos hc]
    exact jlookup_dictSetJ_ne _ _ _ _ (hpart hc) h
  · rw [if_neg hc]
    exact h

theorem foldl_labelStep_none (parts : List String) :
    ∀ lbls, (∀ part ∈ parts, strContains part "=" = true →
        pyStrip (splitFirstEq part).1 ≠ composeKey) →
      jlookup lbls composeKey = none →
      jlookup (parts.foldl labelStep lbls) composeKey = none := by
  induction parts with
  | nil => exact fun lbls _ h => h
  | cons part rest ih =>
      intro lbls hall h
      exact ih (labelStep lbls part)
        (fun x hx => hall x (List.mem_cons_of_mem part hx))
        (labelStep_preserve lbls part (hall part (by simp)) h)

/-- When the compose needle does not occur and no parsed segment's key is the
compose key, the parsed label dict lacks the compose key. -/
theorem parseLabelsString_absent (raw : String)
    (habsent : strContains raw composeNeedle = false)
    (hparts : ∀ part ∈ pySplit raw ",", strContains part "=" = true →
        pyStrip (splitFirstEq part).1 ≠ composeKey) :
    jlookup (parseLabelsString raw) composeKey = none := by
  unfold parseLabelsString
  simp only [habsent, Bool.false_eq_true, if_false]
  exact foldl_labelStep_none (pySplit raw ",") [] hparts rfl

/-- The record `format_container` produces from a payload holding only a
string-valued `Labels` field. -/
def labelsOnlyRecord (parse : String → Option Int) (now : Int) (h raw : String) :
    ContainerRecord :=
  { id := JVal.str "", name := "Unknown", image := JVal.str "Unknown",
    state := JVal.str "unknown",
    status := statusOf parse now [("Labels", JVal.str raw)]
      (stateOf [("Labels", JVal.str raw)]),
    ports := "", created := JVal.str "Unknown", host := h,
    compose_path := (jlookup (parseLabelsString raw) composeKey).getD (JVal.str "") }

/-- C7: the concrete compose label string yields `/srv/app`; malformed
segments (trailing or interleaved) neither raise nor stop the remaining
segments from being parsed; and when the compose key is absent from the
label string the compose path defaults to the empty string. -/
theorem C7_label_parsing (parse : String → Option Int) (now : Int) (h : String) :
    (format_container parse now h
        [("Labels", JVal.str "a=1,com.docker.compose.project.working_dir=/srv/app,b=2")]).map
      (fun r => r.compose_path) = Except.ok (JVal.str "/srv/app")
  ∧ (format_container parse now h
        [("Labels", JVal.str "a=1,com.docker.compose.project.working_dir=/srv/app,b=2,badsegment")]).map
      (fun r => r.compose_path) = Except.ok (JVal.str "/srv/app")
  ∧ (format_container parse now h
        [("Labels", JVal.str "a=1,badsegment,com.docker.compose.project.working_dir=/srv/app")]).map
      (fun r => r.compose_path) = Except.ok (JVal.str "/srv/app")
  ∧ (∀ raw : String, strContains raw composeNeedle = false →
      (∀ part ∈ pySplit raw ",", strContains part "=" = true →
          pyStrip (splitFirstEq part).1 ≠ composeKey) →
      (format_container parse now h [("Labels", JVal.str raw)]).map
        (fun r => r.compose_path) = Except.ok (JVal.str "")) := by
  refine ⟨rfl, rfl, rfl, fun raw habsent hparts => ?_⟩
  have hnone := parseLabelsString_absent raw habsent hparts
  have hfc : format_container parse now h [("Labels", JVal.str raw)]
      = Except.ok (labelsOnlyRecord parse now h raw) := rfl
  rw [hfc]
  simp only [Except.map]
  show Except.ok ((jlookup (parseLabelsString raw) composeKey).getD (JVal.str ""))
      = Except.ok (JVal.str "")
  rw [hnone]
  rfl

/-- Witness for C7 at the concrete key-free label string. -/
theorem C7_witness :
    (format_container demoParse 0 "h" [("Labels", JVal.str "a=1,b=2")]).map
      (fun r => r.compose_path) = Except.ok (JVal.str "") := by
  refine (C7_label_parsing demoParse 0 "h").2.2.2 "a=1,b=2" rfl ?_
  intro part hp
  have : pySplit "a=1,b=2" "," = ["a=1", "b=2"] := rfl
  rw [this] at hp
  rcases List.mem_cons.mp hp with rfl | hp2
  · intro _
    decide
  rcases List.mem_cons.mp hp2 with rfl | hp3
  · intro _
    decide
  · simp at hp3

/-! ## C1: the normalizer on well-shaped payloads -/

theorem isOk_exists {ε α : Type} (x : Except ε α) (h : x.isOk = true) :
    ∃ v, x = Except.ok v := by
  cases x with
  | error e => exact Bool.noConfusion h
  | ok v => exact ⟨v, rfl⟩

theorem hasKey_eq_isSome (m : JObj) (k : String) :
    hasKey m k = (jlookup m k).isSome := by
  unfold hasKey jlookup
  cases m.find? (fun p => p.1 == k) <;> rfl

theorem hasKey_true_exists (m : JObj) (k : String) (h : hasKey m k = true) :
    ∃ v, jlookup m k = some v := by
  rw [hasKey_eq_isSome] at h
  exact Option.isSome_iff_exists.mp h

/-- Well-shapedness of a `Names` field: a non-empty list must begin with a
string (the slip the code tolerates nowhere else). -/
def namesOK (c : JObj) : Bool :=
  match jlookup c "Names" with
  | some (JVal.arr (JVal.str _ :: _)) => true
  | some (JVal.arr (_ :: _)) => false
  | _ => true

/-- Well-shapedness of the identifier: the value actually sliced must be a
string (or a list, which Python also slices). -/
def idOK (c : JObj) : Bool :=
  match (jlookup c "Id").getD ((jlookup c "ID").getD (JVal.str "")) with
  | JVal.str _ => true
  | JVal.arr _ => true
  | _ => false

/-- Well-shapedness of the creation timestamp: a string, or anything falsy. -/
def createdOK (c : JObj) : Bool :=
  match (jlookup c "Created").getD ((jlookup c "CreatedAt").getD (JVal.str "Unknown")) with
  | JVal.str _ => true
  | v => !v.truthy

/-- A port binding entry must be an object (or falsy, which is skipped). -/
def bindingOK (v : JVal) : Bool :=
  match v with
  | JVal.obj _ => true
  | v => !v.truthy

/-- A binding list must be a list of well-shaped bindings (or falsy). -/
def bindingsOK (v : JVal) : Bool :=
  match v with
  | JVal.arr l => l.all bindingOK
  | v => !v.truthy

/-- `NetworkSettings`, when present, must be an object; a structured ports
map must hold well-shaped binding lists. -/
def nsOK (c : JObj) : Bool :=
  match jlookup c "NetworkSettings" with
  | none => true
  | some (JVal.obj m) =>
      match jlookup m "Ports" with
      | some (JVal.obj pm) => pm.all (fun p => bindingsOK p.2)
      | _ => true
  | some _ => false

/-- `Config`, when present, must be an object, and its `Labels` entry an
object or falsy. -/
def configOK (c : JObj) : Bool :=
  match jlookup c "Config" with
  | none => true
  | some (JVal.obj cfg) =>
      match jlookup cfg "Labels" with
      | none => true
      | some (JVal.obj _) => true
      | some v => !v.truthy
  | some _ => false

/-- A payload conforming to the two wire shapes with nulls only where the
code tolerates them. -/
def wellShaped (c : JObj) : Bool :=
  namesOK c && idOK c && nsOK c && configOK c && createdOK c

theorem nameElse_ok (c : JObj) :
    (match jlookup c "Name" with
     | some (JVal.str s) => Except.ok (pyLstripSlash s)
     | _ => (Except.ok "Unknown" : Except String String)).isOk = true := by
  rcases jlookup c "Name" with _ | w
  · rfl
  · cases w <;> rfl

theorem nameOf_ok (c : JObj) (h : namesOK c = true) : (nameOf c).isOk = true := by
  unfold nameOf
  unfold namesOK at h
  cases hv : jlookup c "Names" with
  | none => exact nameElse_ok c
  | some v =>
      rw [hv] at h
      cases v with
      | arr l =>
          cases l with
          | nil => exact nameElse_ok c
          | cons x xs =>
              cases x with
              | str s => rfl
              | null => exact Bool.noConfusion h
              | bool b => exact Bool.noConfusion h
              | num n => exact Bool.noConfusion h
              | arr l2 => exact Bool.noConfusion h
              | obj m => exact Bool.noConfusion h
      | null => exact nameElse_ok c
      | bool b => exact nameElse_ok c
      | num n => exact nameElse_ok c
      | str s => exact nameElse_ok c
      | obj m => exact nameElse_ok c

theorem idOf_ok (c : JObj) (h : idOK c = true) : (idOf c).isOk = true := by
  unfold idOf
  unfold idOK at h
  cases hv : (jlookup c "Id").getD ((jlookup c "ID").getD (JVal.str "")) with
  | str s => rfl
  | arr l => rfl
  | null => rw [hv] at h; exact Bool.noConfusion h
  | bool b => rw [hv] at h; exact Bool.noConfusion h
  | num n => rw [hv] at h; exact Bool.noConfusion h
  | obj m => rw [hv] at h; exact Bool.noConfusion h

theorem createdOf_ok (c : JObj) (h : createdOK c = true) : (createdOf c).isOk = true := by
  unfold createdOf
  dsimp only
  unfold createdOK at h
  cases hv : (jlookup c "Created").getD ((jlookup c "CreatedAt").getD (JVal.str "Unknown")) with
  | str s =>
      split
      · split
        · next e he => simp [pyLen] at he
        · next n hn =>
            split <;> rfl
      · rfl
  | null => rfl
  | bool b =>
      rw [hv] at h
      simp only [JVal.truthy, Bool.not_eq_eq_eq_not, Bool.not_true] at h
      rw [h]
      rfl
  | num n =>
      rw [hv] at h
      have hn : n = 0 := by
        simpa [JVal.truthy] using h
      rw [hn]
      rfl
  | arr l =>
      rw [hv] at h
      have hl : l = [] := by
        simpa [JVal.truthy] using h
      rw [hl]
      rfl
  | obj m =>
      rw [hv] at h
      have hm : m = [] := by
        simpa [JVal.truthy] using h
      rw [hm]
      rfl

theorem bindEntry_ok (port : String) (bind : JVal) (h : bindingOK bind = true) :
    (bindEntry port bind).isOk = true := by
  unfold bindEntry
  unfold bindingOK at h
  cases bind with
  | obj m =>
      split
      · split
        · next e he => simp [pyIn] at he
        · rfl
        · rfl
      · rfl
  | null => rfl
  | bool b =>
      simp only [Bool.not_eq_eq_eq_not, Bool.not_true, JVal.truthy] at h
      rw [h]
      rfl
  | num n =>
      have hn : n = 0 := by simpa [JVal.truthy] using h
      rw [hn]
      rfl
  | str s =>
      have hs : s = "" := by simpa [JVal.truthy] using h
      rw [hs]
      rfl
  | arr l =>
      have hl : l = [] := by simpa [JVal.truthy] using h
      rw [hl]
      rfl

theorem bindsFold_ok (port : String) (l : List JVal) (h : l.all bindingOK = true) :
    (bindsFold port l).isOk = true := by
  induction l with
  | nil => rfl
  | cons bind rest ih =>
      rw [List.all_cons, Bool.and_eq_true] at h
      obtain ⟨v1, hv1⟩ := isOk_exists _ (bindEntry_ok port bind h.1)
      obtain ⟨v2, hv2⟩ := isOk_exists _ (ih h.2)
      unfold bindsFold
      rw [hv1, hv2]
      rfl

theorem portEntry_ok (port : String) (bindings : JVal) (h : bindingsOK bindings = true) :
    (portEntry port bindings).isOk = true := by
  unfold portEntry
  unfold bindingsOK at h
  cases bindings with
  | arr l =>
      cases l with
      | nil => rfl
      | cons x xs =>
          split
          · exact bindsFold_ok port (x :: xs) h
          · next hfalse => exact absurd rfl hfalse
  | null => rfl
  | bool b =>
      simp only [Bool.not_eq_eq_eq_not, Bool.not_true, JVal.truthy] at h
      rw [h]
      rfl
  | num n =>
      have hn : n = 0 := by simpa [JVal.truthy] using h
      rw [hn]
      rfl
  | str s =>
      have hs : s = "" := by simpa [JVal.truthy] using h
      rw [hs]
      rfl
  | obj m =>
      have hm : m = [] := by simpa [JVal.truthy] using h
      rw [hm]
      rfl

theorem sdkPorts_ok (pm : List (String × JVal))
    (h : pm.all (fun p => bindingsOK p.2) = true) : (sdkPorts pm).isOk = true := by
  induction pm with
  | nil => rfl
  | cons p rest ih =>
      rw [List.all_cons, Bool.and_eq_true] at h
      obtain ⟨v1, hv1⟩ := isOk_exists _ (portEntry_ok p.1 p.2 h.1)
      obtain ⟨v2, hv2⟩ := isOk_exists _ (ih h.2)
      unfold sdkPorts
      rw [hv1, hv2]
      rfl

theorem portsListOf_ok (c : JObj) (h : nsOK c = true) : (portsListOf c).isOk = true := by
  unfold portsListOf
  dsimp only
  unfold nsOK at h
  cases hv : jlookup c "NetworkSettings" with
  | none =>
      have hk : hasKey c "NetworkSettings" = false := by
        rw [hasKey_eq_isSome, hv]
        rfl
      rw [hk]
      rfl
  | some v =>
      rw [hv] at h
      have hk : hasKey c "NetworkSettings" = true := by
        rw [hasKey_eq_isSome, hv]
        rfl
      have hjget : jget c "NetworkSettings" = v := by
        unfold jget
        rw [hv]
        rfl
      rw [hk, hjget]
      cases v with
      | obj m =>
          have hin : pyIn "Ports" (JVal.obj m) = Except.ok (hasKey m "Ports") := rfl
          rw [hin]
          cases hkp : hasKey m "Ports" with
          | false => rfl
          | true =>
              obtain ⟨pv, hpv⟩ := hasKey_true_exists m "Ports" hkp
              have hidx : pyIndex (JVal.obj m) "Ports" = Except.ok pv := by
                show (match jlookup m "Ports" with
                      | some x => Except.ok x
                      | none => (Except.error "KeyError" : Except String JVal)) = Except.ok pv
                rw [hpv]
              rw [hidx]
              have h2 : (match jlookup m "Ports" with
                  | some (JVal.obj pm) => pm.all (fun p => bindingsOK p.2)
                  | _ => true) = true := h
              rw [hpv] at h2
              cases pv with
              | obj pm => exact sdkPorts_ok pm h2
              | null => rfl
              | bool b => rfl
              | num n => rfl
              | str s => rfl
              | arr l => rfl
      | null => exact Bool.noConfusion h
      | bool b => exact Bool.noConfusion h
      | num n => exact Bool.noConfusion h
      | str s => exact Bool.noConfusion h
      | arr l => exact Bool.noConfusion h

theorem portsOf_ok (c : JObj) (h : nsOK c = true) : (portsOf c).isOk = true := by
  obtain ⟨l, hl⟩ := isOk_exists _ (portsListOf_ok c h)
  unfold portsOf
  rw [hl]
  rfl

theorem labelsVal_obj (c : JObj) (h : configOK c = true) :
    ∃ m, labelsVal c = Except.ok (JVal.obj m) := by
  unfold labelsVal
  unfold configOK at h
  cases hv : jlookup c "Config" with
  | none =>
      have hk : hasKey c "Config" = false := by
        rw [hasKey_eq_isSome, hv]
        rfl
      rw [hk]
      cases hl : jlookup c "Labels" with
      | none =>
          have hkl : hasKey c "Labels" = false := by
            rw [hasKey_eq_isSome, hl]
            rfl
          rw [hkl]
          exact ⟨[], rfl⟩
      | some w =>
          have hkl : hasKey c "Labels" = true := by
            rw [hasKey_eq_isSome, hl]
            rfl
          have hjg : jget c "Labels" = w := by
            unfold jget
            rw [hl]
            rfl
          rw [hkl, hjg]
          cases w with
          | obj m => exact ⟨m, rfl⟩
          | str raw => exact ⟨parseLabelsString raw, rfl⟩
          | null => exact ⟨[], rfl⟩
          | bool b => exact ⟨[], rfl⟩
          | num n => exact ⟨[], rfl⟩
          | arr l2 => exact ⟨[], rfl⟩
  | some v =>
      rw [hv] at h
      have hk : hasKey c "Config" = true := by
        rw [hasKey_eq_isSome, hv]
        rfl
      have hjc : jget c "Config" = v := by
        unfold jget
        rw [hv]
        rfl
      rw [hk, hjc]
      cases v with
      | obj cfg =>
          have hin : pyIn "Labels" (JVal.obj cfg) = Except.ok (hasKey cfg "Labels") := rfl
          rw [hin]
          cases hkl : hasKey cfg "Labels" with
          | false =>
              cases hl : jlookup c "Labels" with
              | none =>
                  have hkl2 : hasKey c "Labels" = false := by
                    rw [hasKey_eq_isSome, hl]
                    rfl
                  rw [hkl2]
                  exact ⟨[], rfl⟩
              | some w =>
                  have hkl2 : hasKey c "Labels" = true := by
                    rw [hasKey_eq_isSome, hl]
                    rfl
                  have hjg : jget c "Labels" = w := by
                    unfold jget
                    rw [hl]
                    rfl
                  rw [hkl2, hjg]
                  cases w with
                  | obj m => exact ⟨m, rfl⟩
                  | str raw => exact ⟨parseLabelsString raw, rfl⟩
                  | null => exact ⟨[], rfl⟩
                  | bool b => exact ⟨[], rfl⟩
                  | num n => exact ⟨[], rfl⟩
                  | arr l2 => exact ⟨[], rfl⟩
          | true =>
              obtain ⟨lv, hlv⟩ := hasKey_true_exists cfg "Labels" hkl
              have hidx : pyIndex (JVal.obj cfg) "Labels" = Except.ok lv := by
                show (match jlookup cfg "Labels" with
                      | some x => Except.ok x
                      | none => (Except.error "KeyError" : Except String JVal)) = Except.ok lv
                rw [hlv]
              rw [hidx]
              have h2 : (match jlookup cfg "Labels" with
                  | none => true
                  | some (JVal.obj fields) => true
                  | some v => !v.truthy) = true := h
              rw [hlv] at h2
              cases lv with
              | obj lm =>
                  by_cases ht : JVal.truthy (JVal.obj lm) = true
                  · refine ⟨lm, ?_⟩
                    show Except.ok (if JVal.truthy (JVal.obj lm) = true then JVal.obj lm
                        else JVal.obj []) = Except.ok (JVal.obj lm)
                    rw [if_pos ht]
                  · refine ⟨[], ?_⟩
                    show Except.ok (if JVal.truthy (JVal.obj lm) = true then JVal.obj lm
                        else JVal.obj []) = Except.ok (JVal.obj [])
                    rw [if_neg ht]
              | null => exact ⟨[], rfl⟩
              | bool b =>
                  have hb : b = false := by simpa [JVal.truthy] using h2
                  rw [hb]
                  exact ⟨[], rfl⟩
              | num n =>
                  have hn : n = 0 := by simpa [JVal.truthy] using h2
                  rw [hn]
                  exact ⟨[], rfl⟩
              | str s =>
                  have hs : s = "" := by simpa [JVal.truthy] using h2
                  rw [hs]
                  exact ⟨[], rfl⟩
              | arr l2 =>
                  have hl0 : l2 = [] := by simpa [JVal.truthy] using h2
                  rw [hl0]
                  exact ⟨[], rfl⟩
      | null => exact Bool.noConfusion h
      | bool b => exact Bool.noConfusion h
      | num n => exact Bool.noConfusion h
      | str s => exact Bool.noConfusion h
      | arr l2 => exact Bool.noConfusion h

theorem composePathOf_ok (c : JObj) (h : configOK c = true) :
    (composePathOf c).isOk = true := by
  obtain ⟨m, hm⟩ := labelsVal_obj c h
  unfold composePathOf
  rw [hm]
  rfl

theorem format_container_isOk_of (parse : String → Option Int) (now : Int)
    (host_name : String) (c : JObj)
    (h1 : (nameOf c).isOk = true) (h2 : (portsOf c).isOk = true)
    (h3 : (createdOf c).isOk = true) (h4 : (composePathOf c).isOk = true)
    (h5 : (idOf c).isOk = true) :
    (format_container parse now host_name c).isOk = true := by
  obtain ⟨a1, e1⟩ := isOk_exists _ h1
  obtain ⟨a2, e2⟩ := isOk_exists _ h2
  obtain ⟨a3, e3⟩ := isOk_exists _ h3
  obtain ⟨a4, e4⟩ := isOk_exists _ h4
  obtain ⟨a5, e5⟩ := isOk_exists _ h5
  unfold format_container
  rw [e1, e2, e3, e4, e5]
  rfl

/-- The all-fallback record returned for an empty payload. -/
def fallbackRecord (host_name : String) : ContainerRecord :=
  { id := JVal.str "", name := "Unknown", image := JVal.str "Unknown",
    state := JVal.str "unknown", status := JVal.str "Unknown", ports := "",
    created := JVal.str "Unknown", host := host_name, compose_path := JVal.str "" }

/-- C1 (amended): `format_container` returns a record without raising for
every payload conforming to the wire shapes (`Id`/`ID` a string where used, a
non-empty `Names` list headed by a string, `Config` and `NetworkSettings`
objects when present, `Config.Labels` an object or falsy, port binding lists
holding objects, `Created`/`CreatedAt` a string or falsy); on the empty
payload every field takes its documented fallback. -/
theorem C1_normalizer_amended (parse : String → Option Int) (now : Int)
    (host_name : String) (c : JObj) (hws : wellShaped c = true) :
    (format_container parse now host_name c).isOk = true
  ∧ format_container parse now host_name [] = Except.ok (fallbackRecord host_name) := by
  refine ⟨?_, rfl⟩
  unfold wellShaped at hws
  simp only [Bool.and_eq_true] at hws
  obtain ⟨⟨⟨⟨hn, hid⟩, hns⟩, hcf⟩, hcr⟩ := hws
  exact format_container_isOk_of parse now host_name c (nameOf_ok c hn)
    (portsOf_ok c hns) (createdOf_ok c hcr) (composePathOf_ok c hcf) (idOf_ok c hid)

/-- C1 counterexample: a payload with a null `NetworkSettings` field (a legal
null field of the inspect wire shape) raises `TypeError` inside the ports
section, and the remapped form of an empty CLI JSON object raises
`AttributeError` on its `Names` list holding null, so the claim that
`format_container` never raises on any combination of present, missing, or
null fields is false. -/
theorem C1_counterexample :
    (format_container demoParse 0 "h" [("NetworkSettings", JVal.null)]).isOk = false
  ∧ (format_container demoParse 0 "h" (remapCli [])).isOk = false :=
  ⟨rfl, rfl⟩

/-- A fully populated inspect-style payload. -/
def demoInspect : JObj :=
  [("Id", JVal.str "0123456789abcdef"),
   ("Name", JVal.str "/web"),
   ("Config", JVal.obj [("Image", JVal.str "nginx:latest"), ("Labels", JVal.null)]),
   ("State", JVal.obj [("Status", JVal.str "running"),
                       ("StartedAt", JVal.str "2026-01-01T00:00:00Z")]),
   ("NetworkSettings", JVal.obj [("Ports", JVal.obj
      [("80/tcp", JVal.arr [JVal.obj [("HostIp", JVal.str "0.0.0.0"),
                                      ("HostPort", JVal.str "8080")]]),
       ("443/tcp", JVal.null)])]),
   ("Created", JVal.str "2026-01-01T00:00:00.123456789Z")]

/-- Witness for C1 at a fully populated well-shaped inspect payload. -/
theorem C1_witness :
    (format_container demoParse 5400 "h" demoInspect).isOk = true
  ∧ format_container demoParse 5400 "h" [] = Except.ok (fallbackRecord "h") :=
  C1_normalizer_amended demoParse 5400 "h" demoInspect rfl

/-! ## C2: inspect shape versus CLI shape on equivalent semantic data

The wire shapes themselves are not code of this repository; the generator
definitions below are modelled from the spec (section 6, remote wire
contract, and section 4.1, inspect payload shape): one abstract set of
container facts is rendered once as a management-API inspect payload and
once as a CLI listing line, so "carrying equivalent semantic data" means
"generated from the same facts". -/

/-- One published host binding of a container port. -/
structure PortBinding where
  hostIp : String
  hostPort : String

/-- One container port with its (possibly empty) list of host bindings. -/
structure PortSpec where
  containerPort : String
  bindings : List PortBinding

/-- The abstract facts one container carries on the wire. -/
structure ContainerFacts where
  cid : String
  name : String
  image : String
  state : String
  statusText : String
  ports : List PortSpec
  createdDate : String
  createdTime : String
  createdFrac : String

/-- Modelled from the spec: a binding object of the inspect shape. -/
def bindingJson (b : PortBinding) : JVal :=
  JVal.obj [("HostIp", JVal.str b.hostIp), ("HostPort", JVal.str b.hostPort)]

/-- Modelled from the spec: one entry of the inspect `NetworkSettings.Ports`
map - null when unpublished, a list of binding objects otherwise. -/
def portMapEntry (p : PortSpec) : String × JVal :=
  (p.containerPort,
   if p.bindings.isEmpty then JVal.null else JVal.arr (p.bindings.map bindingJson))

/-- Modelled from the spec: the inspect-style payload of one container. -/
def inspectPayload (f : ContainerFacts) : JObj :=
  [("Id", JVal.str f.cid),
   ("Name", JVal.str ("/" ++ f.name)),
   ("Config", JVal.obj [("Image", JVal.str f.image), ("Labels", JVal.null)]),
   ("State", JVal.obj [("Status", JVal.str f.state)]),
   ("NetworkSettings", JVal.obj [("Ports", JVal.obj (f.ports.map portMapEntry))]),
   ("Created", JVal.str (f.createdDate ++ "T" ++ f.createdTime ++ ("." ++ f.createdFrac ++ "Z")))]

/-- Modelled from the docker CLI port column format: published ports carry
the host address prefix, unpublished ports are the bare port string. -/
def cliPortEntry (p : PortSpec) : List String :=
  if p.bindings.isEmpty then [p.containerPort]
  else p.bindings.map (fun b => b.hostIp ++ ":" ++ b.hostPort ++ "->" ++ p.containerPort)

/-- Modelled from the docker CLI port column format: all entries joined. -/
def cliPortsString (ps : List PortSpec) : String :=
  String.intercalate ", " (ps.map cliPortEntry).flatten

/-- Modelled from the spec: the CLI `--format json` line of one container
(fields ID, Names, Image, State, Status, Ports, CreatedAt, Labels). -/
def cliPayload (f : ContainerFacts) : JObj :=
  [("ID", JVal.str (String.mk (f.cid.data.take 12))),
   ("Names", JVal.str f.name),
   ("Image", JVal.str f.image),
   ("State", JVal.str f.state),
   ("Status", JVal.str f.statusText),
   ("Ports", JVal.str (cliPortsString f.ports)),
   ("CreatedAt", JVal.str (f.createdDate ++ " " ++ f.createdTime ++ " +0000 UTC")),
   ("Labels", JVal.str "")]

/-- Facts with one published port, on which the two shapes disagree. -/
def fxPublished : ContainerFacts :=
  { cid := "0123456789abcdef", name := "web", image := "nginx", state := "running",
    statusText := "Up 2 hours",
    ports := [{ containerPort := "80/tcp",
                bindings := [{ hostIp := "0.0.0.0", hostPort := "8080" }] }],
    createdDate := "2026-01-01", createdTime := "00:00:00", createdFrac := "123456789" }

/-- C2 counterexample: the inspect payload and the remapped CLI payload of
the same published-port container normalize to different `ports` strings
(the SDK rendering omits the host address the CLI rendering carries), so the
five compared fields are not all identical on equivalent semantic data. -/
theorem C2_counterexample :
    (format_container demoParse 0 "h" (inspectPayload fxPublished)).map (fun r => r.ports)
      = Except.ok "8080->80/tcp"
  ∧ (format_container demoParse 0 "h" (remapCli (cliPayload fxPublished))).map (fun r => r.ports)
      = Except.ok "0.0.0.0:8080->80/tcp" :=
  ⟨rfl, rfl⟩

theorem format_container_total (parse : String → Option Int) (now : Int)
    (host_name : String) (c : JObj) (hws : wellShaped c = true) :
    (format_container parse now host_name c).isOk = true := by
  unfold wellShaped at hws
  simp only [Bool.and_eq_true] at hws
  obtain ⟨⟨⟨⟨hn, hid⟩, hns⟩, hcf⟩, hcr⟩ := hws
  exact format_container_isOk_of parse now host_name c (nameOf_ok c hn)
    (portsOf_ok c hns) (createdOf_ok c hcr) (composePathOf_ok c hcf) (idOf_ok c hid)

theorem lstrip_slash_append (s : String) : pyLstripSlash ("/" ++ s) = pyLstripSlash s := by
  unfold pyLstripSlash
  rw [String.data_append]
  rfl

theorem replaceT_data (s : String) :
    (replaceT s).data = s.data.map (fun ch => if ch = 'T' then ' ' else ch) := rfl

theorem replaceT_append (a b : String) :
    (replaceT (a ++ b)).data = (replaceT a).data ++ (replaceT b).data := by
  rw [replaceT_data, replaceT_data, replaceT_data, String.data_append, List.map_append]

theorem replaceT_length (s : String) : (replaceT s).data.length = s.length := by
  rw [replaceT_data, List.length_map]
  rfl

theorem replaceT_take19 (d sep t r : String) (hd : d.length = 10) (ht : t.length = 8)
    (hsepT : (replaceT sep).data = [' ']) :
    ((replaceT (d ++ sep ++ t ++ r)).data).take 19
      = (replaceT d).data ++ ' ' :: (replaceT t).data := by
  rw [replaceT_append, replaceT_append, replaceT_append, hsepT]
  have hRd : (replaceT d).data.length = 10 := by rw [replaceT_length, hd]
  have hRt : (replaceT t).data.length = 8 := by rw [replaceT_length, ht]
  rw [List.take_append_eq_append_take]
  have hA : ((replaceT d).data ++ [' '] ++ (replaceT t).data).length = 19 := by
    simp [List.length_append, hRd, hRt]
  rw [List.take_of_length_le (le_of_eq hA), hA]
  simp [List.append_assoc]

/-- Evaluation of the created section on a date-time string built from a
10-character date, a one-character separator that the T-replacement maps to
a space, an 8-character time and a non-empty rest. -/
theorem createdOf_of_shape (c : JObj) (d sep t r : String)
    (hcv : (jlookup c "Created").getD ((jlookup c "CreatedAt").getD (JVal.str "Unknown"))
        = JVal.str (d ++ sep ++ t ++ r))
    (hd : d.length = 10) (ht : t.length = 8) (hsep1 : sep.length = 1)
    (hsepT : (replaceT sep).data = [' ']) (hr : 0 < r.length) :
    createdOf c
      = Except.ok (JVal.str (String.mk ((replaceT d).data ++ ' ' :: (replaceT t).data))) := by
  unfold createdOf
  dsimp only
  rw [hcv]
  have hslen : (d ++ sep ++ t ++ r).length = 19 + r.length := by
    simp only [String.length_append]
    omega
  have hne : (d ++ sep ++ t ++ r) ≠ "" := by
    intro heq
    have hlen0 := congrArg String.length heq
    rw [hslen] at hlen0
    have h0 : ("" : String).length = 0 := rfl
    omega
  rw [if_pos (by simp [JVal.truthy, hne] : JVal.truthy (JVal.str (d ++ sep ++ t ++ r)) = true)]
  show (if (d ++ sep ++ t ++ r).length > 19 then
      Except.ok (JVal.str (String.mk ((replaceT (d ++ sep ++ t ++ r)).data.take 19)))
    else Except.ok (JVal.str (d ++ sep ++ t ++ r)))
    = Except.ok (JVal.str (String.mk ((replaceT d).data ++ ' ' :: (replaceT t).data)))
  rw [if_pos (by rw [hslen]; omega)]
  rw [replaceT_take19 d sep t r hd ht hsepT]

theorem nsOK_inspect (f : ContainerFacts) : nsOK (inspectPayload f) = true := by
  show (f.ports.map portMapEntry).all (fun p => bindingsOK p.2) = true
  simp only [List.all_eq_true]
  intro x hx
  obtain ⟨p, _, rfl⟩ := List.mem_map.mp hx
  show bindingsOK (portMapEntry p).2 = true
  unfold portMapEntry
  by_cases he : p.bindings.isEmpty = true
  · rw [if_pos he]
    rfl
  · rw [if_neg he]
    show (p.bindings.map bindingJson).all bindingOK = true
    simp only [List.all_eq_true]
    intro b hb
    obtain ⟨b0, _, rfl⟩ := List.mem_map.mp hb
    rfl

theorem wellShaped_inspect (f : ContainerFacts) : wellShaped (inspectPayload f) = true := by
  unfold wellShaped
  rw [nsOK_inspect]
  rfl

theorem intercalate_single (sep s : String) : String.intercalate sep [s] = s := by
  show String.intercalate.go s sep [] = s
  rw [String.intercalate.go]

theorem sdkPorts_unpub (ps : List PortSpec)
    (h : ps.all (fun p => p.bindings.isEmpty) = true) :
    sdkPorts (ps.map portMapEntry)
      = Except.ok (ps.map (fun p => p.containerPort)) := by
  induction ps with
  | nil => rfl
  | cons p rest ih =>
      rw [List.all_cons, Bool.and_eq_true] at h
      have hmp : portMapEntry p = (p.containerPort, JVal.null) := by
        unfold portMapEntry
        rw [if_pos h.1]
      rw [List.map_cons, hmp]
      show (match portEntry p.containerPort JVal.null with
            | Except.error e => Except.error e
            | Except.ok l =>
                match sdkPorts (rest.map portMapEntry) with
                | Except.error e => Except.error e
                | Except.ok ls => Except.ok (l ++ ls))
          = Except.ok (p.containerPort :: rest.map (fun p => p.containerPort))
      rw [ih h.2]
      rfl

theorem flatten_cliPortEntry_unpub (ps : List PortSpec)
    (h : ps.all (fun p => p.bindings.isEmpty) = true) :
    (ps.map cliPortEntry).flatten = ps.map (fun p => p.containerPort) := by
  induction ps with
  | nil => rfl
  | cons p rest ih =>
      rw [List.all_cons, Bool.and_eq_true] at h
      have hce : cliPortEntry p = [p.containerPort] := by
        unfold cliPortEntry
        rw [if_pos h.1]
      rw [List.map_cons, hce, List.map_cons, List.flatten_cons, ih h.2]
      rfl

theorem portsOf_cli (f : ContainerFacts) :
    portsOf (remapCli (cliPayload f)) = Except.ok (cliPortsString f.ports) := by
  show Except.ok (String.intercalate ", "
      (if JVal.truthy (JVal.str (cliPortsString f.ports)) = true
       then [pyStr (JVal.str (cliPortsString f.ports))] else []))
    = Except.ok (cliPortsString f.ports)
  by_cases hts : cliPortsString f.ports = ""
  · rw [hts]
    rfl
  · rw [if_pos (by simp [JVal.truthy, hts] : JVal.truthy (JVal.str (cliPortsString f.ports)) = true)]
    show Except.ok (String.intercalate ", " [cliPortsString f.ports])
        = Except.ok (cliPortsString f.ports)
    rw [intercalate_single]

theorem portsOf_inspect_unpub (f : ContainerFacts)
    (h : f.ports.all (fun p => p.bindings.isEmpty) = true) :
    portsOf (inspectPayload f)
      = Except.ok (String.intercalate ", " (f.ports.map (fun p => p.containerPort))) := by
  have h1 : portsListOf (inspectPayload f) = sdkPorts (f.ports.map portMapEntry) := rfl
  unfold portsOf
  rw [h1, sdkPorts_unpub f.ports h]

/-- C2 (amended): inspect-shape and CLI-shape payloads generated from the
same container facts normalize to identical `name`, `image`, `state` and
`created` fields; the `ports` fields agree whenever no port is published,
while a published port makes them differ (the CLI string carries the host
address prefix the SDK rendering omits - see the counterexample). -/
theorem C2_shape_equivalence_amended (parse : String → Option Int) (now : Int)
    (host_name : String) (f : ContainerFacts)
    (hd : f.createdDate.length = 10) (ht : f.createdTime.length = 8) :
    ∃ rI rC,
      format_container parse now host_name (inspectPayload f) = Except.ok rI
      ∧ format_container parse now host_name (remapCli (cliPayload f)) = Except.ok rC
      ∧ rI.name = rC.name ∧ rI.image = rC.image ∧ rI.state = rC.state
      ∧ rI.created = rC.created
      ∧ (f.ports.all (fun p => p.bindings.isEmpty) = true → rI.ports = rC.ports) := by
  obtain ⟨rI, hI⟩ := isOk_exists _
    (format_container_total parse now host_name _ (wellShaped_inspect f))
  obtain ⟨rC, hC⟩ := isOk_exists _
    (format_container_total parse now host_name (remapCli (cliPayload f)) rfl)
  obtain ⟨nI, pI, cI, compI, idI, hnI, hpI, hcI, _, _, hrecI⟩ :=
    format_container_ok_inv _ _ _ _ _ hI
  obtain ⟨nC, pC, cC, compC, idC, hnC, hpC, hcC, _, _, hrecC⟩ :=
    format_container_ok_inv _ _ _ _ _ hC
  have hnIv : nI = pyLstripSlash ("/" ++ f.name) := by
    have e1 : nameOf (inspectPayload f) = Except.ok (pyLstripSlash ("/" ++ f.name)) := rfl
    rw [hnI] at e1
    exact (Except.ok.injEq _ _).mp e1
  have hnCv : nC = pyLstripSlash f.name := by
    have e2 : nameOf (remapCli (cliPayload f)) = Except.ok (pyLstripSlash f.name) := rfl
    rw [hnC] at e2
    exact (Except.ok.injEq _ _).mp e2
  have hcIv : cI = JVal.str (String.mk ((replaceT f.createdDate).data
      ++ ' ' :: (replaceT f.createdTime).data)) := by
    have e3 := createdOf_of_shape (inspectPayload f) f.createdDate "T" f.createdTime
      ("." ++ f.createdFrac ++ "Z") rfl hd ht rfl rfl
      (by
        rw [String.length_append, String.length_append]
        have e1 : ("." : String).length = 1 := rfl
        have e2 : ("Z" : String).length = 1 := rfl
        omega)
    rw [hcI] at e3
    exact (Except.ok.injEq _ _).mp e3
  have hcCv : cC = JVal.str (String.mk ((replaceT f.createdDate).data
      ++ ' ' :: (replaceT f.createdTime).data)) := by
    have e4 := createdOf_of_shape (remapCli (cliPayload f)) f.createdDate " " f.createdTime
      " +0000 UTC" rfl hd ht rfl rfl (by decide)
    rw [hcC] at e4
    exact (Except.ok.injEq _ _).mp e4
  refine ⟨rI, rC, hI, hC, ?_, ?_, ?_, ?_, ?_⟩
  · rw [hrecI, hrecC]
    show nI = nC
    rw [hnIv, hnCv]
    exact lstrip_slash_append f.name
  · rw [hrecI, hrecC]
    rfl
  · rw [hrecI, hrecC]
    rfl
  · rw [hrecI, hrecC]
    show cI = cC
    rw [hcIv, hcCv]
  · intro hup
    rw [hrecI, hrecC]
    show pI = pC
    have e5 := portsOf_inspect_unpub f hup
    rw [hpI] at e5
    have e6 := portsOf_cli f
    rw [hpC] at e6
    rw [(Except.ok.injEq _ _).mp e5, (Except.ok.injEq _ _).mp e6]
    unfold cliPortsString
    rw [flatten_cliPortEntry_unpub f.ports hup]

/-- Facts with only unpublished ports, for the witness. -/
def fxUnpub : ContainerFacts :=
  { cid := "0123456789abcdef", name := "web", image := "nginx", state := "running",
    statusText := "Up 2 hours",
    ports := [{ containerPort := "80/tcp", bindings := [] }],
    createdDate := "2026-01-01", createdTime := "00:00:00", createdFrac := "123456789" }

/-- Witness for C2: the amended theorem applied at concrete unpublished
facts. -/
theorem C2_witness :
    ∃ rI rC,
      format_container demoParse 0 "h" (inspectPayload fxUnpub) = Except.ok rI
      ∧ format_container demoParse 0 "h" (remapCli (cliPayload fxUnpub)) = Except.ok rC
      ∧ rI.name = rC.name ∧ rI.image = rC.image ∧ rI.state = rC.state
      ∧ rI.created = rC.created
      ∧ (fxUnpub.ports.all (fun p => p.bindings.isEmpty) = true → rI.ports = rC.ports) :=
  C2_shape_equivalence_amended demoParse 0 "h" fxUnpub rfl rfl
